import Mathlib

/-!
Verification development for the olib multi-format serialization library.

The model is a shallow embedding of the C sources:

* olib_object.c        — the tagged Value tree and its operations;
* olib_serializer.c    — the format-agnostic engine (recursive tree walk over
                         a callback table, here a structure of functions);
* olib_serializer_binary.c — the compact binary backend;
* olib_serializer_json_text.c — the JSON text backend (the parts the claims
                         touch: peek, number parsing, integer read);
* olib_serializer_yaml.c — the flow/block style decision for lists.

Modelling conventions:

* a C object pointer is an Option Value (none models NULL);
* C strings are lists of bytes (Nat), without the terminating NUL; a byte
  buffer is a List Nat of values below 256 (the uint8_t range);
* machine integers are Nat/Int with explicit reduction modulo 2^32 / 2^64 at
  the points where the C code casts;
* an IEEE-754 double is carried as its 64-bit pattern (a Nat below 2^64):
  the binary backend moves doubles with memcpy of the bit pattern, so this
  is exact for it; conversions that depend on floating-point arithmetic
  (double to int casts, strtod, strtoll on strings) are libc externals and
  are taken as parameters of the affected operations;
* allocation failure paths are not modelled (allocation is an external
  collaborator per the specification);
* reader cursors (buffer, pos) are modelled as the list of remaining bytes;
  the C rewind of read_pos corresponds to returning the earlier list.
-/

-- #############################################################################
-- Little-endian word encoding helpers (binary_write_u32 / u64, read_u32 / u64)
-- #############################################################################

/-- Little-endian bytes of a 32-bit word, as written by binary_write_u32
(each byte is (value >> 8*i) & 0xFF). -/
def u32le (n : Nat) : List Nat :=
  [n % 256, n / 256 % 256, n / 65536 % 256, n / 16777216 % 256]

/-- Little-endian bytes of a 64-bit word, as written by binary_write_u64. -/
def u64le (n : Nat) : List Nat :=
  [n % 256, n / 256 % 256, n / 65536 % 256, n / 16777216 % 256,
   n / 4294967296 % 256, n / 1099511627776 % 256,
   n / 281474976710656 % 256, n / 72057594037927936 % 256]

/-- Reassemble a 32-bit little-endian word, as read by binary_read_u32.
The C code ORs the shifted uint8_t bytes; on bytes below 256 the shifted
summands occupy disjoint bit ranges, so the OR equals this sum. -/
def readU32 : List Nat → Option (Nat × List Nat)
  | b0 :: b1 :: b2 :: b3 :: rest =>
      some (b0 + b1 * 256 + b2 * 65536 + b3 * 16777216, rest)
  | _ => none

/-- Reassemble a 64-bit little-endian word, as read by binary_read_u64. -/
def readU64 : List Nat → Option (Nat × List Nat)
  | b0 :: b1 :: b2 :: b3 :: b4 :: b5 :: b6 :: b7 :: rest =>
      some (b0 + b1 * 256 + b2 * 65536 + b3 * 16777216 +
            b4 * 4294967296 + b5 * 1099511627776 +
            b6 * 281474976710656 + b7 * 72057594037927936, rest)
  | _ => none

/-- Read a single byte (binary_read_u8). -/
def readU8 : List Nat → Option (Nat × List Nat)
  | b :: rest => some (b, rest)
  | _ => none

/-- Two's-complement image of an int64_t in a uint64_t, the C cast
(uint64_t)value used by binary_write_i64. -/
def i64encode (i : Int) : Nat := (i % 18446744073709551616).toNat

/-- Signed reading of a uint64_t as an int64_t, the C cast (int64_t)value
used by binary_read_i64. -/
def i64decode (n : Nat) : Int :=
  if n < 9223372036854775808 then (n : Int) else (n : Int) - 18446744073709551616

/-- Effect of copying a byte buffer through a NUL-terminated C string
(strlen + memcpy, as in olib_object_set_string and olib_object_struct_add):
only the bytes before the first NUL survive. -/
def cstring_copy (s : List Nat) : List Nat := s.takeWhile (fun b => b ≠ 0)

-- #############################################################################
-- olib_object.h: the type tag enum (olib_object_type_t)
-- #############################################################################

/-- Tags of olib_object_type_t, in declaration order.  The header names slot 1
ARRAY while several sources name it LIST; the specification records this as
pure naming drift, so one constructor stands for both.  tmax models
OLIB_OBJECT_TYPE_MAX, which read_peek also uses as an end-of-stream /
unrecognized-lookahead answer. -/
inductive ObjType where
  | tstruct
  | tarray
  | tint
  | tuint
  | tfloat
  | tstring
  | tbool
  | tmatrix
  | tmax
deriving DecidableEq, Repr

-- #############################################################################
-- olib_object.c: the value tree
-- #############################################################################

/-- The olib_object_t tagged union.  Strings and struct keys are byte lists
(C strings without their NUL); a float is its IEEE-754 bit pattern; matrix
data entries are likewise 64-bit patterns. -/
inductive Value where
  | vint (i : Int)
  | vuint (n : Nat)
  | vfloat (bits : Nat)
  | vstring (s : List Nat)
  | vbool (b : Bool)
  | vlist (xs : List Value)
  | vstruct (fs : List (List Nat × Value))
  | vmatrix (dims : List Nat) (data : List Nat)

/-- Tag stored in a live object (obj->type). -/
def valueType : Value → ObjType
  | Value.vint _ => ObjType.tint
  | Value.vuint _ => ObjType.tuint
  | Value.vfloat _ => ObjType.tfloat
  | Value.vstring _ => ObjType.tstring
  | Value.vbool _ => ObjType.tbool
  | Value.vlist _ => ObjType.tarray
  | Value.vstruct _ => ObjType.tstruct
  | Value.vmatrix _ _ => ObjType.tmatrix

/-- olib_object_get_type: NULL yields OLIB_OBJECT_TYPE_MAX. -/
def olib_object_get_type : Option Value → ObjType
  | none => ObjType.tmax
  | some v => valueType v

/-- olib_object_is_type. -/
def olib_object_is_type (obj : Option Value) (t : ObjType) : Bool :=
  match obj with
  | none => false
  | some v => valueType v = t

/-- olib_object_is_value. -/
def olib_object_is_value (obj : Option Value) : Bool :=
  match obj with
  | none => false
  | some v =>
      valueType v = ObjType.tint ∨ valueType v = ObjType.tuint ∨
      valueType v = ObjType.tfloat ∨ valueType v = ObjType.tstring ∨
      valueType v = ObjType.tbool

/-- olib_object_is_container. -/
def olib_object_is_container (obj : Option Value) : Bool :=
  match obj with
  | none => false
  | some v => valueType v = ObjType.tstruct ∨ valueType v = ObjType.tarray

/-- olib_object_dupe: NULL duplicates to NULL; otherwise a deep copy, which in
a pure model is the value itself. -/
def olib_object_dupe : Option Value → Option Value
  | none => none
  | some v => some v

-- #############################################################################
-- olib_object.c: list (array) operations
-- #############################################################################

/-- olib_object_list_size. -/
def olib_object_list_size : Option Value → Nat
  | some (Value.vlist xs) => xs.length
  | _ => 0

/-- olib_object_list_get. -/
def olib_object_list_get : Option Value → Nat → Option Value
  | some (Value.vlist xs), index => xs.get? index
  | _, _ => none

/-- olib_object_list_set: fails out of range, otherwise replaces the slot
(the old element is freed). -/
def olib_object_list_set : Option Value → Nat → Value → Bool × Option Value
  | some (Value.vlist xs), index, v =>
      if index < xs.length then (true, some (Value.vlist (xs.set index v)))
      else (false, some (Value.vlist xs))
  | obj, _, _ => (false, obj)

/-- olib_object_list_insert: fails for index beyond size, otherwise shifts the
tail up and stores the element. -/
def olib_object_list_insert : Option Value → Nat → Value → Bool × Option Value
  | some (Value.vlist xs), index, v =>
      if index ≤ xs.length then
        (true, some (Value.vlist (xs.take index ++ v :: xs.drop index)))
      else (false, some (Value.vlist xs))
  | obj, _, _ => (false, obj)

/-- olib_object_list_remove: fails out of range, otherwise frees the element
and shifts the tail down. -/
def olib_object_list_remove : Option Value → Nat → Bool × Option Value
  | some (Value.vlist xs), index =>
      if index < xs.length then
        (true, some (Value.vlist (xs.take index ++ xs.drop (index + 1))))
      else (false, some (Value.vlist xs))
  | obj, _ => (false, obj)

/-- olib_object_list_push: insert at the end. -/
def olib_object_list_push (obj : Option Value) (v : Value) : Bool × Option Value :=
  match obj with
  | some (Value.vlist xs) =>
      olib_object_list_insert (some (Value.vlist xs)) xs.length v
  | _ => (false, obj)

/-- olib_object_list_pop: fails on an empty list, otherwise removes the last
element. -/
def olib_object_list_pop (obj : Option Value) : Bool × Option Value :=
  match obj with
  | some (Value.vlist xs) =>
      if xs.length = 0 then (false, some (Value.vlist xs))
      else olib_object_list_remove (some (Value.vlist xs)) (xs.length - 1)
  | _ => (false, obj)

-- #############################################################################
-- olib_object.c: struct operations
-- #############################################################################

/-- olib_object_struct_find (static helper): first entry whose key compares
equal by strcmp. -/
def olib_object_struct_find : List (List Nat × Value) → List Nat → Option Value
  | [], _ => none
  | (k, v) :: fs, key => if k = key then some v else olib_object_struct_find fs key

/-- Value replacement performed by olib_object_struct_set when the key exists:
the first matching entry keeps its key and index, its value is freed and the
new value stored in place. -/
def struct_replace_entry : List (List Nat × Value) → List Nat → Value → List (List Nat × Value)
  | [], _, _ => []
  | (k, v0) :: fs, key, v =>
      if k = key then (k, v) :: fs else (k, v0) :: struct_replace_entry fs key v

/-- Entry-array effect of olib_object_struct_add: fail (leaving the entries
untouched) when the key is already present, otherwise append a copy of the
key with the value. -/
def struct_add_entries (fs : List (List Nat × Value)) (key : List Nat) (v : Value) :
    Bool × List (List Nat × Value) :=
  if (olib_object_struct_find fs key).isSome then (false, fs)
  else (true, fs ++ [(cstring_copy key, v)])

/-- Entry-array effect of olib_object_struct_set: replace in place when the
key exists, otherwise delegate to add. -/
def struct_set_entries (fs : List (List Nat × Value)) (key : List Nat) (v : Value) :
    Bool × List (List Nat × Value) :=
  if (olib_object_struct_find fs key).isSome then (true, struct_replace_entry fs key v)
  else struct_add_entries fs key v

/-- Entry-array effect of olib_object_struct_remove: drop the first entry with
the key, shifting the rest down; false when absent. -/
def struct_remove_entries : List (List Nat × Value) → List Nat → Bool × List (List Nat × Value)
  | [], _ => (false, [])
  | (k, v) :: fs, key =>
      if k = key then (true, fs)
      else
        match struct_remove_entries fs key with
        | (ok, fs2) => (ok, (k, v) :: fs2)

/-- olib_object_struct_size. -/
def olib_object_struct_size : Option Value → Nat
  | some (Value.vstruct fs) => fs.length
  | _ => 0

/-- olib_object_struct_has. -/
def olib_object_struct_has (obj : Option Value) (key : Option (List Nat)) : Bool :=
  match obj, key with
  | some (Value.vstruct fs), some k => (olib_object_struct_find fs k).isSome
  | _, _ => false

/-- olib_object_struct_get. -/
def olib_object_struct_get (obj : Option Value) (key : Option (List Nat)) : Option Value :=
  match obj, key with
  | some (Value.vstruct fs), some k => olib_object_struct_find fs k
  | _, _ => none

/-- olib_object_struct_key_at. -/
def olib_object_struct_key_at (obj : Option Value) (index : Nat) : Option (List Nat) :=
  match obj with
  | some (Value.vstruct fs) => (fs.get? index).map Prod.fst
  | _ => none

/-- olib_object_struct_value_at. -/
def olib_object_struct_value_at (obj : Option Value) (index : Nat) : Option Value :=
  match obj with
  | some (Value.vstruct fs) => (fs.get? index).map Prod.snd
  | _ => none

/-- olib_object_struct_add (public): NULL object, non-struct tag or NULL key
fail; a present key fails leaving the struct untouched. -/
def olib_object_struct_add (obj : Option Value) (key : Option (List Nat)) (v : Value) :
    Bool × Option Value :=
  match obj, key with
  | some (Value.vstruct fs), some k =>
      match struct_add_entries fs k v with
      | (ok, fs2) => (ok, some (Value.vstruct fs2))
  | o, _ => (false, o)

/-- olib_object_struct_set (public): overwrite in place, or add when absent. -/
def olib_object_struct_set (obj : Option Value) (key : Option (List Nat)) (v : Value) :
    Bool × Option Value :=
  match obj, key with
  | some (Value.vstruct fs), some k =>
      match struct_set_entries fs k v with
      | (ok, fs2) => (ok, some (Value.vstruct fs2))
  | o, _ => (false, o)

/-- olib_object_struct_remove (public). -/
def olib_object_struct_remove (obj : Option Value) (key : Option (List Nat)) :
    Bool × Option Value :=
  match obj, key with
  | some (Value.vstruct fs), some k =>
      match struct_remove_entries fs k with
      | (ok, fs2) => (ok, some (Value.vstruct fs2))
  | o, _ => (false, o)

-- #############################################################################
-- olib_object.c: value getters and setters
-- #############################################################################

/-- olib_object_get_int.  The double-to-int64 cast (f2i, on the bit pattern)
and strtoll on a stored string (s2i) are libc/floating-point externals taken
as parameters. -/
def olib_object_get_int (f2i : Nat → Int) (s2i : List Nat → Int) : Option Value → Int
  | none => 0
  | some (Value.vint i) => i
  | some (Value.vuint n) => i64decode n
  | some (Value.vfloat bits) => f2i bits
  | some (Value.vbool b) => if b then 1 else 0
  | some (Value.vstring s) => s2i s
  | some _ => 0

/-- olib_object_get_uint, with the double-to-uint64 cast and strtoull
abstracted. -/
def olib_object_get_uint (f2u : Nat → Nat) (s2u : List Nat → Nat) : Option Value → Nat
  | none => 0
  | some (Value.vuint n) => n
  | some (Value.vint i) => i64encode i
  | some (Value.vfloat bits) => f2u bits
  | some (Value.vbool b) => if b then 1 else 0
  | some (Value.vstring s) => s2u s
  | some _ => 0

/-- olib_object_get_float, with the int64/uint64-to-double casts and strtod
abstracted; the bool branch returns the exact bit patterns of 1.0 and 0.0. -/
def olib_object_get_float (i2f : Int → Nat) (u2f : Nat → Nat) (s2f : List Nat → Nat) :
    Option Value → Nat
  | none => 0
  | some (Value.vfloat bits) => bits
  | some (Value.vint i) => i2f i
  | some (Value.vuint n) => u2f n
  | some (Value.vbool b) => if b then 4607182418800017408 else 0
  | some (Value.vstring s) => s2f s
  | some _ => 0

/-- olib_object_get_string: no coercion; only an actual string answers. -/
def olib_object_get_string : Option Value → Option (List Nat)
  | some (Value.vstring s) => some s
  | _ => none

/-- olib_object_get_bool.  The float branch tests float_val != 0.0, which on
bit patterns is exactly: neither +0.0 (0) nor -0.0 (2^63); the string branch
compares against "true" and "1". -/
def olib_object_get_bool : Option Value → Bool
  | none => false
  | some (Value.vbool b) => b
  | some (Value.vint i) => i ≠ 0
  | some (Value.vuint n) => n ≠ 0
  | some (Value.vfloat bits) => bits ≠ 0 ∧ bits ≠ 9223372036854775808
  | some (Value.vstring s) => s = [116, 114, 117, 101] ∨ s = [49]
  | some _ => false

/-- olib_object_set_int: fails on NULL or a non-int tag. -/
def olib_object_set_int (obj : Option Value) (v : Int) : Bool × Option Value :=
  match obj with
  | some (Value.vint _) => (true, some (Value.vint v))
  | o => (false, o)

/-- olib_object_set_uint. -/
def olib_object_set_uint (obj : Option Value) (v : Nat) : Bool × Option Value :=
  match obj with
  | some (Value.vuint _) => (true, some (Value.vuint v))
  | o => (false, o)

/-- olib_object_set_float. -/
def olib_object_set_float (obj : Option Value) (bits : Nat) : Bool × Option Value :=
  match obj with
  | some (Value.vfloat _) => (true, some (Value.vfloat bits))
  | o => (false, o)

/-- olib_object_set_string: stores a NUL-bounded copy of the argument. -/
def olib_object_set_string (obj : Option Value) (v : List Nat) : Bool × Option Value :=
  match obj with
  | some (Value.vstring _) => (true, some (Value.vstring (cstring_copy v)))
  | o => (false, o)

/-- olib_object_set_bool. -/
def olib_object_set_bool (obj : Option Value) (v : Bool) : Bool × Option Value :=
  match obj with
  | some (Value.vbool _) => (true, some (Value.vbool v))
  | o => (false, o)

-- #############################################################################
-- olib_object.c: matrix operations
-- #############################################################################

/-- olib_object_matrix_new: rejects a NULL dims pointer, ndims == 0 and any
zero dimension; otherwise allocates zero-filled data of total_size =
product of the dimensions (calloc gives the bit pattern of 0.0). -/
def olib_object_matrix_new (dims : Option (List Nat)) : Option Value :=
  match dims with
  | none => none
  | some ds =>
      if ds.length = 0 then none
      else if ds.any (fun d => d = 0) then none
      else some (Value.vmatrix ds (List.replicate ds.prod 0))

/-- olib_object_matrix_ndims. -/
def olib_object_matrix_ndims : Option Value → Nat
  | some (Value.vmatrix dims _) => dims.length
  | _ => 0

/-- olib_object_matrix_dim. -/
def olib_object_matrix_dim (obj : Option Value) (axis : Nat) : Nat :=
  match obj with
  | some (Value.vmatrix dims _) => (dims.get? axis).getD 0
  | _ => 0

/-- olib_object_matrix_dims. -/
def olib_object_matrix_dims : Option Value → Option (List Nat)
  | some (Value.vmatrix dims _) => some dims
  | _ => none

/-- olib_object_matrix_total_size: the stored total_size field, which the C
code sets to the dimension product at construction; the data buffer is
allocated with exactly that many entries and never resized, so the field
equals the data length. -/
def olib_object_matrix_total_size : Option Value → Nat
  | some (Value.vmatrix _ data) => data.length
  | _ => 0

/-- olib_object_matrix_calc_index: row-major index with a bounds check per
axis; the C sentinel (size_t)-1 becomes none.  The C walks the axes from the
last to the first accumulating the multiplier, modelled by a fold over the
reversed dims/indices pairs. -/
def olib_object_matrix_calc_index (dims indices : List Nat) : Option Nat :=
  ((dims.zip indices).reverse.foldl
      (fun acc dp =>
        match acc with
        | none => none
        | some (idx, mult) =>
            if dp.2 < dp.1 then some (idx + dp.2 * mult, mult * dp.1) else none)
      (some (0, 1))).map Prod.fst

/-- olib_object_matrix_get: 0.0 on NULL object, NULL indices or an
out-of-range index. -/
def olib_object_matrix_get (obj : Option Value) (indices : Option (List Nat)) : Nat :=
  match obj, indices with
  | some (Value.vmatrix dims data), some idx =>
      match olib_object_matrix_calc_index dims idx with
      | none => 0
      | some i => (data.get? i).getD 0
  | _, _ => 0

/-- olib_object_matrix_data. -/
def olib_object_matrix_data : Option Value → Option (List Nat)
  | some (Value.vmatrix _ data) => some data
  | _ => none

/-- olib_object_matrix_set. -/
def olib_object_matrix_set (obj : Option Value) (indices : Option (List Nat))
    (v : Nat) : Bool × Option Value :=
  match obj, indices with
  | some (Value.vmatrix dims data), some idx =>
      match olib_object_matrix_calc_index dims idx with
      | none => (false, some (Value.vmatrix dims data))
      | some i => (true, some (Value.vmatrix dims (data.set i v)))
  | o, _ => (false, o)

/-- olib_object_matrix_fill. -/
def olib_object_matrix_fill (obj : Option Value) (v : Nat) : Bool × Option Value :=
  match obj with
  | some (Value.vmatrix dims data) =>
      (true, some (Value.vmatrix dims (List.replicate data.length v)))
  | o => (false, o)

/-- olib_object_matrix_set_data: copies min(count, total_size) entries from
the source over the front of the data buffer and reports success.  A source
shorter than that count is undefined behaviour in C (memcpy overread); the
model then copies what the source has. -/
def olib_object_matrix_set_data (obj : Option Value) (data : Option (List Nat))
    (count : Nat) : Bool × Option Value :=
  match obj, data with
  | some (Value.vmatrix dims d0), some src =>
      let copy_count := min count d0.length
      (true, some (Value.vmatrix dims (src.take copy_count ++ d0.drop copy_count)))
  | o, _ => (false, o)

-- #############################################################################
-- olib_serializer.h: the backend callback table (olib_serializer_config_t)
-- #############################################################################

/-- The callback table a format backend installs (olib_serializer_config_t).
The context pointer plus the backend state behind it are the type σ; every
callback threads it explicitly.  Callbacks that return bool become Option σ
(none models false); read callbacks producing a value return it with the new
state.  read_peek returns a tag and may move the cursor (text backends do);
read_struct_key reports no-more-keys as none while still exposing the state
it leaves behind, because the C code can consume bytes before failing. -/
structure SerializerConfig (σ : Type) where
  text_based : Bool
  write_int : σ → Int → Option σ
  write_uint : σ → Nat → Option σ
  write_float : σ → Nat → Option σ
  write_string : σ → List Nat → Option σ
  write_bool : σ → Bool → Option σ
  write_array_begin : σ → Nat → Option σ
  write_array_end : σ → Option σ
  write_struct_begin : σ → Option σ
  write_struct_key : σ → List Nat → Option σ
  write_struct_end : σ → Option σ
  write_matrix : σ → List Nat → List Nat → Option σ
  read_peek : σ → ObjType × σ
  read_int : σ → Option (Int × σ)
  read_uint : σ → Option (Nat × σ)
  read_float : σ → Option (Nat × σ)
  read_string : σ → Option (List Nat × σ)
  read_bool : σ → Option (Bool × σ)
  read_array_begin : σ → Option (Nat × σ)
  read_array_end : σ → Option σ
  read_struct_begin : σ → Option σ
  read_struct_key : σ → Option (List Nat) × σ
  read_struct_end : σ → Option σ
  read_matrix : σ → Option (List Nat × List Nat × σ)

-- #############################################################################
-- olib_serializer.c: the write engine (olib_serializer_write_object)
-- #############################################################################

mutual
/-- olib_serializer_write_object: dispatch on the tag; scalars go through the
matching primitive with the value read back by the typed getter (which on a
matching tag returns the stored payload); containers recurse over their
children between begin/end primitives; any callback failure aborts. -/
def olib_serializer_write_object (cfg : SerializerConfig σ) : Value → σ → Option σ
  | Value.vint i, s => cfg.write_int s i
  | Value.vuint n, s => cfg.write_uint s n
  | Value.vfloat bits, s => cfg.write_float s bits
  | Value.vstring str, s => cfg.write_string s str
  | Value.vbool b, s => cfg.write_bool s b
  | Value.vlist xs, s =>
      match cfg.write_array_begin s xs.length with
      | none => none
      | some s2 =>
          match olib_serializer_write_items cfg xs s2 with
          | none => none
          | some s3 => cfg.write_array_end s3
  | Value.vstruct fs, s =>
      match cfg.write_struct_begin s with
      | none => none
      | some s2 =>
          match olib_serializer_write_fields cfg fs s2 with
          | none => none
          | some s3 => cfg.write_struct_end s3
  | Value.vmatrix dims data, s => cfg.write_matrix s dims data

/-- The list-element loop of olib_serializer_write_object. -/
def olib_serializer_write_items (cfg : SerializerConfig σ) : List Value → σ → Option σ
  | [], s => some s
  | v :: vs, s =>
      match olib_serializer_write_object cfg v s with
      | none => none
      | some s2 => olib_serializer_write_items cfg vs s2

/-- The struct-entry loop of olib_serializer_write_object: each stored key
goes through write_struct_key, then the value recursively. -/
def olib_serializer_write_fields (cfg : SerializerConfig σ) :
    List (List Nat × Value) → σ → Option σ
  | [], s => some s
  | (k, v) :: fs, s =>
      match cfg.write_struct_key s k with
      | none => none
      | some s2 =>
          match olib_serializer_write_object cfg v s2 with
          | none => none
          | some s3 => olib_serializer_write_fields cfg fs s3
end

-- #############################################################################
-- olib_serializer.c: the read engine (olib_serializer_read_object)
-- #############################################################################

mutual
/-- olib_serializer_read_object: peek the next tag and dispatch.  Scalar
values go through the typed reader and the matching setter (the string
setter stores a NUL-bounded copy); a list reads the declared count of
children then requires read_array_end; a struct loops on read_struct_key,
inserting each pair through olib_object_struct_set, then requires
read_struct_end; a matrix is rebuilt with olib_object_matrix_new followed by
olib_object_matrix_set_data over the full total_size.  Every failure makes
the whole read none.  The C recursion is unbounded; the fuel argument is a
modelling artifact, with none returned on exhaustion. -/
def olib_serializer_read_object (cfg : SerializerConfig σ) : Nat → σ → Option (Value × σ)
  | 0, _ => none
  | fuel + 1, s =>
      match cfg.read_peek s with
      | (t, s1) =>
        match t with
        | ObjType.tint =>
            match cfg.read_int s1 with
            | none => none
            | some (v, s2) => some (Value.vint v, s2)
        | ObjType.tuint =>
            match cfg.read_uint s1 with
            | none => none
            | some (v, s2) => some (Value.vuint v, s2)
        | ObjType.tfloat =>
            match cfg.read_float s1 with
            | none => none
            | some (v, s2) => some (Value.vfloat v, s2)
        | ObjType.tstring =>
            match cfg.read_string s1 with
            | none => none
            | some (v, s2) => some (Value.vstring (cstring_copy v), s2)
        | ObjType.tbool =>
            match cfg.read_bool s1 with
            | none => none
            | some (v, s2) => some (Value.vbool v, s2)
        | ObjType.tarray =>
            match cfg.read_array_begin s1 with
            | none => none
            | some (n, s2) =>
                match olib_serializer_read_items cfg fuel n s2 with
                | none => none
                | some (xs, s3) =>
                    match cfg.read_array_end s3 with
                    | none => none
                    | some s4 => some (Value.vlist xs, s4)
        | ObjType.tstruct =>
            match cfg.read_struct_begin s1 with
            | none => none
            | some s2 =>
                match olib_serializer_read_struct_loop cfg fuel [] s2 with
                | none => none
                | some (fs, s3) =>
                    match cfg.read_struct_end s3 with
                    | none => none
                    | some s4 => some (Value.vstruct fs, s4)
        | ObjType.tmatrix =>
            match cfg.read_matrix s1 with
            | none => none
            | some (dims, data, s2) =>
                match olib_object_matrix_new (some dims) with
                | none => none
                | some m =>
                    match olib_object_matrix_set_data (some m) (some data)
                        (olib_object_matrix_total_size (some m)) with
                    | (_, some m2) => some (m2, s2)
                    | (_, none) => none
        | ObjType.tmax => none

/-- The counted element loop of the list case: read_object once per declared
element, abort on the first failure. -/
def olib_serializer_read_items (cfg : SerializerConfig σ) :
    Nat → Nat → σ → Option (List Value × σ)
  | 0, _, _ => none
  | _ + 1, 0, s => some ([], s)
  | fuel + 1, n + 1, s =>
      match olib_serializer_read_object cfg fuel s with
      | none => none
      | some (v, s2) =>
          match olib_serializer_read_items cfg fuel n s2 with
          | none => none
          | some (vs, s3) => some (v :: vs, s3)

/-- The while(read_struct_key) loop of the struct case, carrying the struct
built so far; each pair is inserted with olib_object_struct_set (whose key
argument is the backend's NUL-terminated temp string, hence the NUL-bounded
copy), so a repeated key overwrites in place. -/
def olib_serializer_read_struct_loop (cfg : SerializerConfig σ) :
    Nat → List (List Nat × Value) → σ → Option (List (List Nat × Value) × σ)
  | 0, _, _ => none
  | fuel + 1, acc, s =>
      match cfg.read_struct_key s with
      | (none, s2) => some (acc, s2)
      | (some k, s2) =>
          match olib_serializer_read_object cfg fuel s2 with
          | none => none
          | some (v, s3) =>
              olib_serializer_read_struct_loop cfg fuel
                (struct_set_entries acc (cstring_copy k) v).2 s3
end

-- #############################################################################
-- olib_serializer.c: public byte/string entry points
-- #############################################################################

/-- olib_serializer_write: fails on NULL serializer or object, then runs the
write engine.  The source consults nothing else; in particular it never
checks cfg.text_based. -/
def olib_serializer_write (cfg : SerializerConfig σ) (obj : Option Value) (s : σ) :
    Option σ :=
  match obj with
  | none => none
  | some v => olib_serializer_write_object cfg v s

/-- olib_serializer_write_string: fails on NULL serializer or object, then
runs the write engine; the source performs no text_based check. -/
def olib_serializer_write_string (cfg : SerializerConfig σ) (obj : Option Value) (s : σ) :
    Option σ :=
  match obj with
  | none => none
  | some v => olib_serializer_write_object cfg v s

/-- olib_serializer_read: fails on NULL data or zero size, then runs the read
engine on the backend state; no text_based check in the source. -/
def olib_serializer_read (cfg : SerializerConfig σ) (data : Option (List Nat))
    (size : Nat) (fuel : Nat) (s : σ) : Option Value :=
  match data with
  | none => none
  | some _ =>
      if size = 0 then none
      else (olib_serializer_read_object cfg fuel s).map Prod.fst

/-- olib_serializer_read_string: fails on a NULL string, then runs the read
engine; no text_based check in the source. -/
def olib_serializer_read_string (cfg : SerializerConfig σ) (str : Option (List Nat))
    (fuel : Nat) (s : σ) : Option Value :=
  match str with
  | none => none
  | some _ => (olib_serializer_read_object cfg fuel s).map Prod.fst

-- #############################################################################
-- olib_serializer_binary.c: tags and write callbacks
-- #############################################################################

/-- Wire tag constants BINARY_TAG_INT .. BINARY_TAG_MATRIX mapped to object
types as in binary_read_peek. -/
def binTagToType (tag : Nat) : ObjType :=
  if tag = 1 then ObjType.tint
  else if tag = 2 then ObjType.tuint
  else if tag = 3 then ObjType.tfloat
  else if tag = 4 then ObjType.tstring
  else if tag = 5 then ObjType.tbool
  else if tag = 6 then ObjType.tarray
  else if tag = 7 then ObjType.tstruct
  else if tag = 8 then ObjType.tmatrix
  else ObjType.tmax

/-- binary_write_int: tag byte then the two's-complement value, little
endian. -/
def binary_write_int (s : List Nat) (v : Int) : Option (List Nat) :=
  some (s ++ 1 :: u64le (i64encode v))

/-- binary_write_uint. -/
def binary_write_uint (s : List Nat) (v : Nat) : Option (List Nat) :=
  some (s ++ 2 :: u64le v)

/-- binary_write_float: the IEEE-754 bit pattern, little endian. -/
def binary_write_float (s : List Nat) (bits : Nat) : Option (List Nat) :=
  some (s ++ 3 :: u64le bits)

/-- binary_write_string: tag, u32 length (the C casts strlen to uint32_t),
then that many bytes, no terminator. -/
def binary_write_string (s : List Nat) (str : List Nat) : Option (List Nat) :=
  some (s ++ 4 :: (u32le (str.length % 4294967296) ++ str.take (str.length % 4294967296)))

/-- binary_write_bool. -/
def binary_write_bool (s : List Nat) (v : Bool) : Option (List Nat) :=
  some (s ++ [5, if v then 1 else 0])

/-- binary_write_list_begin: tag then the u32 element count. -/
def binary_write_list_begin (s : List Nat) (size : Nat) : Option (List Nat) :=
  some (s ++ 6 :: u32le (size % 4294967296))

/-- binary_write_list_end: nothing on the wire. -/
def binary_write_list_end (s : List Nat) : Option (List Nat) := some s

/-- binary_write_struct_begin: just the tag. -/
def binary_write_struct_begin (s : List Nat) : Option (List Nat) := some (s ++ [7])

/-- binary_write_struct_key: u32 key length then the key bytes. -/
def binary_write_struct_key (s : List Nat) (key : List Nat) : Option (List Nat) :=
  some (s ++ u32le (key.length % 4294967296) ++ key.take (key.length % 4294967296))

/-- binary_write_struct_end: the zero-length-key sentinel. -/
def binary_write_struct_end (s : List Nat) : Option (List Nat) := some (s ++ u32le 0)

/-- binary_write_matrix: tag, u32 ndims, each dimension as u32, then the
product-many doubles.  The C reads exactly (product of dims) entries from
the data pointer. -/
def binary_write_matrix (s : List Nat) (dims data : List Nat) : Option (List Nat) :=
  some (s ++ 8 :: (u32le (dims.length % 4294967296) ++
    (dims.map (fun d => u32le (d % 4294967296))).flatten ++
    ((data.take dims.prod).map u64le).flatten))

-- #############################################################################
-- olib_serializer_binary.c: read callbacks
-- #############################################################################

/-- binary_read_peek: map the tag byte without consuming; end of buffer or an
unknown tag answers OLIB_OBJECT_TYPE_MAX. -/
def binary_read_peek (s : List Nat) : ObjType × List Nat :=
  match s with
  | [] => (ObjType.tmax, [])
  | b :: rest => (binTagToType b, b :: rest)

/-- binary_read_int: check the tag byte then read the 64-bit value signed. -/
def binary_read_int (s : List Nat) : Option (Int × List Nat) :=
  match readU8 s with
  | none => none
  | some (tag, s1) =>
      if tag = 1 then
        match readU64 s1 with
        | none => none
        | some (n, s2) => some (i64decode n, s2)
      else none

/-- binary_read_uint. -/
def binary_read_uint (s : List Nat) : Option (Nat × List Nat) :=
  match readU8 s with
  | none => none
  | some (tag, s1) =>
      if tag = 2 then readU64 s1 else none

/-- binary_read_float: the 64-bit pattern back. -/
def binary_read_float (s : List Nat) : Option (Nat × List Nat) :=
  match readU8 s with
  | none => none
  | some (tag, s1) =>
      if tag = 3 then readU64 s1 else none

/-- binary_read_string: tag, u32 length, then that many bytes into the temp
string. -/
def binary_read_string (s : List Nat) : Option (List Nat × List Nat) :=
  match readU8 s with
  | none => none
  | some (tag, s1) =>
      if tag = 4 then
        match readU32 s1 with
        | none => none
        | some (len, s2) =>
            if s2.length < len then none
            else some (s2.take len, s2.drop len)
      else none

/-- binary_read_bool. -/
def binary_read_bool (s : List Nat) : Option (Bool × List Nat) :=
  match readU8 s with
  | none => none
  | some (tag, s1) =>
      if tag = 5 then
        match readU8 s1 with
        | none => none
        | some (b, s2) => some (b != 0, s2)
      else none

/-- binary_read_list_begin: tag then the u32 element count. -/
def binary_read_list_begin (s : List Nat) : Option (Nat × List Nat) :=
  match readU8 s with
  | none => none
  | some (tag, s1) =>
      if tag = 6 then readU32 s1 else none

/-- binary_read_list_end: nothing to read. -/
def binary_read_list_end (s : List Nat) : Option (List Nat) := some s

/-- binary_read_struct_begin: consume the struct tag. -/
def binary_read_struct_begin (s : List Nat) : Option (List Nat) :=
  match readU8 s with
  | none => none
  | some (tag, s1) => if tag = 7 then some s1 else none

/-- binary_read_struct_key: a zero length is the end sentinel — the length
field is rewound so read_struct_end can validate it; a truncated length
fails without consuming; a truncated key body fails after consuming the
length field, exactly as the C cursor moves. -/
def binary_read_struct_key (s : List Nat) : Option (List Nat) × List Nat :=
  match readU32 s with
  | none => (none, s)
  | some (len, s1) =>
      if len = 0 then (none, s)
      else if s1.length < len then (none, s1)
      else (some (s1.take len), s1.drop len)

/-- binary_read_struct_end: read a u32 and require the zero sentinel. -/
def binary_read_struct_end (s : List Nat) : Option (List Nat) :=
  match readU32 s with
  | none => none
  | some (len, s1) => if len = 0 then some s1 else none

/-- Dimension loop of binary_read_matrix: ndims u32 values. -/
def read_u32_list : Nat → List Nat → Option (List Nat × List Nat)
  | 0, s => some ([], s)
  | n + 1, s =>
      match readU32 s with
      | none => none
      | some (d, s1) =>
          match read_u32_list n s1 with
          | none => none
          | some (ds, s2) => some (d :: ds, s2)

/-- Data loop of binary_read_matrix: total doubles as 64-bit patterns. -/
def read_u64_list : Nat → List Nat → Option (List Nat × List Nat)
  | 0, s => some ([], s)
  | n + 1, s =>
      match readU64 s with
      | none => none
      | some (d, s1) =>
          match read_u64_list n s1 with
          | none => none
          | some (ds, s2) => some (d :: ds, s2)

/-- binary_read_matrix: tag, u32 ndims, the dims, then (product of the dims
as read) doubles. -/
def binary_read_matrix (s : List Nat) : Option (List Nat × List Nat × List Nat) :=
  match readU8 s with
  | none => none
  | some (tag, s1) =>
      if tag = 8 then
        match readU32 s1 with
        | none => none
        | some (nd, s2) =>
            match read_u32_list nd s2 with
            | none => none
            | some (dims, s3) =>
                match read_u64_list dims.prod s3 with
                | none => none
                | some (data, s4) => some (dims, data, s4)
      else none

/-- The binary backend's callback table (olib_serializer_new_binary): a
binary-based backend.  The write state is the accumulated output buffer, the
read state the remaining input bytes. -/
def binaryConfig : SerializerConfig (List Nat) where
  text_based := false
  write_int := binary_write_int
  write_uint := binary_write_uint
  write_float := binary_write_float
  write_string := binary_write_string
  write_bool := binary_write_bool
  write_array_begin := binary_write_list_begin
  write_array_end := fun s => binary_write_list_end s
  write_struct_begin := binary_write_struct_begin
  write_struct_key := binary_write_struct_key
  write_struct_end := binary_write_struct_end
  write_matrix := binary_write_matrix
  read_peek := binary_read_peek
  read_int := binary_read_int
  read_uint := binary_read_uint
  read_float := binary_read_float
  read_string := binary_read_string
  read_bool := binary_read_bool
  read_array_begin := binary_read_list_begin
  read_array_end := fun s => binary_read_list_end s
  read_struct_begin := binary_read_struct_begin
  read_struct_key := binary_read_struct_key
  read_struct_end := binary_read_struct_end
  read_matrix := binary_read_matrix

-- #############################################################################
-- olib_serializer_json_text.c: whitespace, peek and number scanning
-- #############################################################################

/-- JSON whitespace set of json_skip_whitespace. -/
def json_ws (c : Char) : Bool := c = ' ' || c = '\t' || c = '\n' || c = '\r'

/-- json_skip_whitespace: advance the cursor past whitespace. -/
def json_skip_whitespace (s : List Char) : List Char := s.dropWhile json_ws

/-- The matrix lookahead inside json_read_peek: after an opening brace, skip
whitespace; a quote whose remaining input holds at least 10 characters and
starts with the nine characters of the sentinel key marks a matrix object.
The C restores the cursor afterwards. -/
def json_peek_matrix_probe (p : List Char) : Bool :=
  match p with
  | '{' :: rest =>
      match json_skip_whitespace rest with
      | '"' :: ks =>
          decide (10 ≤ ks.length) &&
          decide (ks.take 9 = ['_', '_', 'm', 'a', 't', 'r', 'i', 'x', '"'])
      | _ => false
  | _ => false

/-- The int/float lookahead of json_read_peek: skip an optional minus and the
digits; a following dot or exponent letter makes it a float, anything else an
int. -/
def json_peek_number_type (p : List Char) : ObjType :=
  let q := match p with
           | '-' :: r => r
           | _ => p
  match q.dropWhile Char.isDigit with
  | c :: _ => if c = '.' || c = 'e' || c = 'E' then ObjType.tfloat else ObjType.tint
  | [] => ObjType.tint

/-- json_read_peek: skips whitespace and a single separating comma (moving
the cursor), then classifies the lookahead character.  Note the cursor
motion: unlike the binary peek this is not non-consuming.  null is
classified as an int. -/
def json_read_peek (s : List Char) : ObjType × List Char :=
  let p0 := json_skip_whitespace s
  let p := match p0 with
           | ',' :: r => json_skip_whitespace r
           | _ => p0
  match p with
  | [] => (ObjType.tmax, p)
  | ch :: _ =>
      if ch = '"' then (ObjType.tstring, p)
      else if ch = '{' then
        (if json_peek_matrix_probe p then ObjType.tmatrix else ObjType.tstruct, p)
      else if ch = '[' then (ObjType.tarray, p)
      else if ch = '-' || ch.isDigit then (json_peek_number_type p, p)
      else if ch = 't' || ch = 'f' then
        (if decide (p.take 4 = ['t', 'r', 'u', 'e']) ||
            decide (p.take 5 = ['f', 'a', 'l', 's', 'e']) then ObjType.tbool
         else ObjType.tmax, p)
      else if ch = 'n' then
        (if decide (p.take 4 = ['n', 'u', 'l', 'l']) then ObjType.tint else ObjType.tmax, p)
      else (ObjType.tmax, p)

/-- Result record of json_parse_number (text_parse_number_result_t).  The
float_value field is omitted: it is produced by strtod, a floating-point
libc external outside the shallow embedding; the integer path carries
int_value exactly. -/
structure TextParseNumberResult where
  is_float : Bool
  is_negative : Bool
  int_value : Int

/-- Decimal value of a digit string. -/
def natOfDigits (ds : List Char) : Nat := ds.foldl (fun a c => a * 10 + (c.toNat - 48)) 0

/-- Behaviour of strtoll(buf, NULL, 10) on a scanned sign-and-digits token:
the unbounded decimal value clamped to the int64_t range (strtoll saturates
at LLONG_MIN / LLONG_MAX on overflow). -/
def strtoll_clamp (neg : Bool) (digits : List Char) : Int :=
  let v : Int := (natOfDigits digits : Nat)
  let sv := if neg then -v else v
  if sv < -9223372036854775808 then -9223372036854775808
  else if sv > 9223372036854775807 then 9223372036854775807
  else sv

/-- json_parse_number: scan minus sign, digits, optional fraction and
exponent (either sets is_float).  On the integer path int_value comes from
strtoll on the token, modelled exactly with its clamping; on the float path
the C casts strtod's result, a floating-point external taken as the
parameter d2i applied to the consumed token. -/
def json_parse_number (d2i : List Char → Int) (p0 : List Char) :
    Option (TextParseNumberResult × List Char) :=
  let p := json_skip_whitespace p0
  let neg : Bool := match p with
                    | '-' :: _ => true
                    | _ => false
  let p1 := match p with
            | '-' :: r => r
            | _ => p
  let digits := p1.takeWhile Char.isDigit
  if digits.isEmpty then none
  else
    let p2 := p1.dropWhile Char.isDigit
    let isf1 : Bool := match p2 with
                       | '.' :: _ => true
                       | _ => false
    let p3 := match p2 with
              | '.' :: r => r.dropWhile Char.isDigit
              | _ => p2
    let isf2 : Bool := match p3 with
                       | c :: _ => c = 'e' || c = 'E'
                       | [] => false
    let p4 := match p3 with
              | c :: r =>
                  if c = 'e' || c = 'E' then
                    (match r with
                     | s :: r2 => if s = '+' || s = '-' then r2.dropWhile Char.isDigit
                                  else r.dropWhile Char.isDigit
                     | [] => r) 
                  else p3
              | [] => p3
    let token := p.take (p.length - p4.length)
    some ({ is_float := isf1 || isf2, is_negative := neg,
            int_value := if isf1 || isf2 then d2i token else strtoll_clamp neg digits },
          p4)

/-- json_read_int: null reads as 0, otherwise the parsed number's int_value. -/
def json_read_int (d2i : List Char → Int) (s : List Char) : Option (Int × List Char) :=
  let p := json_skip_whitespace s
  if decide (p.take 4 = ['n', 'u', 'l', 'l']) then some (0, p.drop 4)
  else
    match json_parse_number d2i p with
    | none => none
    | some (r, p2) => some (r.int_value, p2)

/-- json_read_uint: like json_read_int but the C casts int_value through
(uint64_t). -/
def json_read_uint (d2i : List Char → Int) (s : List Char) : Option (Nat × List Char) :=
  let p := json_skip_whitespace s
  if decide (p.take 4 = ['n', 'u', 'l', 'l']) then some (0, p.drop 4)
  else
    match json_parse_number d2i p with
    | none => none
    | some (r, p2) => some (i64encode r.int_value, p2)

-- #############################################################################
-- olib_serializer_json_text.c: integer writing (top level)
-- #############################################################################

/-- json_write_int at top level: with an empty container stack the value
prefix emits nothing, so the output is exactly the %lld rendering. -/
def json_write_int_chars (v : Int) : List Char :=
  if v < 0 then '-' :: Nat.toDigits 10 v.natAbs else Nat.toDigits 10 v.toNat

/-- json_write_uint at top level: the %llu rendering. -/
def json_write_uint_chars (n : Nat) : List Char := Nat.toDigits 10 n

/-- json_finish_write appends a trailing newline to the document. -/
def json_finish_write_append (cs : List Char) : List Char := cs ++ ['\n']

-- #############################################################################
-- olib_serializer_yaml.c: flow versus block style for lists
-- #############################################################################

/-- The style decision of yaml_write_list_begin: a provisional choice of flow
for at most 8 elements outside a block list, then forced to flow inside a
flow list and to block inside a block list (the struct branch leaves it
untouched). -/
def yaml_write_list_use_flow (size : Nat) (in_flow_list in_block_list : Bool) : Bool :=
  let use_flow := decide (size ≤ 8) && !in_block_list
  if in_flow_list then true
  else if in_block_list then false
  else use_flow

-- #############################################################################
-- Derived closed form of the binary writer output
-- #############################################################################

mutual
/-- Bytes the binary backend emits for one value under the write engine; a
derived closed form, proved below to equal the engine/backend composition
(the backend callbacks always succeed, appending to the buffer). -/
def binEmitValue : Value → List Nat
  | Value.vint i => 1 :: u64le (i64encode i)
  | Value.vuint n => 2 :: u64le n
  | Value.vfloat bits => 3 :: u64le bits
  | Value.vstring s => 4 :: (u32le (s.length % 4294967296) ++ s.take (s.length % 4294967296))
  | Value.vbool b => [5, if b then 1 else 0]
  | Value.vlist xs => 6 :: (u32le (xs.length % 4294967296) ++ binEmitItems xs)
  | Value.vstruct fs => 7 :: (binEmitFields fs ++ u32le 0)
  | Value.vmatrix dims data =>
      8 :: (u32le (dims.length % 4294967296) ++
        (dims.map (fun d => u32le (d % 4294967296))).flatten ++
        ((data.take dims.prod).map u64le).flatten)

/-- Emitted bytes of a list body. -/
def binEmitItems : List Value → List Nat
  | [] => []
  | v :: vs => binEmitValue v ++ binEmitItems vs

/-- Emitted bytes of a struct body (key frames and values, without the end
sentinel). -/
def binEmitFields : List (List Nat × Value) → List Nat
  | [] => []
  | (k, v) :: fs =>
      u32le (k.length % 4294967296) ++ k.take (k.length % 4294967296) ++
        binEmitValue v ++ binEmitFields fs
end

-- #############################################################################
-- Fuel bounds for the binary read recursion
-- #############################################################################

mutual
/-- Recursion depth budget sufficient for the fueled read engine on the
encoding of a value. -/
def binWeight : Value → Nat
  | Value.vint _ => 1
  | Value.vuint _ => 1
  | Value.vfloat _ => 1
  | Value.vstring _ => 1
  | Value.vbool _ => 1
  | Value.vlist xs => 1 + binWeightItems xs
  | Value.vstruct fs => 1 + binWeightFields fs
  | Value.vmatrix _ _ => 1

/-- Budget for the element loop. -/
def binWeightItems : List Value → Nat
  | [] => 1
  | v :: vs => 1 + binWeight v + binWeightItems vs

/-- Budget for the key/value loop. -/
def binWeightFields : List (List Nat × Value) → Nat
  | [] => 1
  | (_, v) :: fs => 1 + binWeight v + binWeightFields fs
end

-- #############################################################################
-- Well-formedness of representable trees
-- #############################################################################

/-- A byte a C string can carry: nonzero and below 256. -/
def byte_ok (b : Nat) : Bool := decide (0 < b) && decide (b < 256)

/-- A string the library can hold and the binary format can frame: NUL-free
bytes, length below 2^32. -/
def cstr_ok (s : List Nat) : Bool := s.all byte_ok && decide (s.length < 4294967296)

mutual
/-- Trees as the C library can actually hold them: int64/uint64 payloads in
range, doubles as 64-bit patterns, NUL-free strings and keys short enough
for the u32 frames, struct keys unique (the add/set interface enforces
this), and matrices as olib_object_matrix_new builds them: at least one
dimension, all positive and below 2^32, data length equal to the dimension
product. -/
def wfValue : Value → Bool
  | Value.vint i =>
      decide (-9223372036854775808 ≤ i) && decide (i < 9223372036854775808)
  | Value.vuint n => decide (n < 18446744073709551616)
  | Value.vfloat bits => decide (bits < 18446744073709551616)
  | Value.vstring s => cstr_ok s
  | Value.vbool _ => true
  | Value.vlist xs => decide (xs.length < 4294967296) && wfItems xs
  | Value.vstruct fs => decide ((fs.map Prod.fst).Nodup) && wfFields fs
  | Value.vmatrix dims data =>
      decide (dims ≠ []) && decide (dims.length < 4294967296) &&
      dims.all (fun d => decide (0 < d) && decide (d < 4294967296)) &&
      decide (data.length = dims.prod) &&
      data.all (fun x => decide (x < 18446744073709551616))

/-- Well-formedness through a list body. -/
def wfItems : List Value → Bool
  | [] => true
  | v :: vs => wfValue v && wfItems vs

/-- Well-formedness through struct entries. -/
def wfFields : List (List Nat × Value) → Bool
  | [] => true
  | (k, v) :: fs => cstr_ok k && wfValue v && wfFields fs
end

mutual
/-- Every struct key in the tree is non-empty.  An empty key is constructible
through the public interface but collides with the binary format's
zero-length-key end sentinel. -/
def keysNonempty : Value → Bool
  | Value.vlist xs => keysNonemptyItems xs
  | Value.vstruct fs => keysNonemptyFields fs
  | _ => true

/-- keysNonempty through a list body. -/
def keysNonemptyItems : List Value → Bool
  | [] => true
  | v :: vs => keysNonempty v && keysNonemptyItems vs

/-- keysNonempty through struct entries. -/
def keysNonemptyFields : List (List Nat × Value) → Bool
  | [] => true
  | (k, v) :: fs => decide (k ≠ []) && keysNonempty v && keysNonemptyFields fs
end

mutual
/-- Matrix data/dims consistency through a whole tree (the matrix invariant
of the specification, read side). -/
def matrixInvValue : Value → Bool
  | Value.vmatrix dims data => decide (data.length = dims.prod)
  | Value.vlist xs => matrixInvItems xs
  | Value.vstruct fs => matrixInvFields fs
  | _ => true

/-- matrixInvValue through a list body. -/
def matrixInvItems : List Value → Bool
  | [] => true
  | v :: vs => matrixInvValue v && matrixInvItems vs

/-- matrixInvValue through struct entries. -/
def matrixInvFields : List (List Nat × Value) → Bool
  | [] => true
  | (_, v) :: fs => matrixInvValue v && matrixInvFields fs
end

-- #############################################################################
-- Theorems.  Encoding helper lemmas
-- #############################################################################

theorem readU32_u32le (n : Nat) (rest : List Nat) (h : n < 4294967296) :
    readU32 (u32le n ++ rest) = some (n, rest) := by
  have hn : n % 256 + n / 256 % 256 * 256 + n / 65536 % 256 * 65536 +
      n / 16777216 % 256 * 16777216 = n := by omega
  simp [u32le, readU32, hn]

theorem readU64_u64le (n : Nat) (rest : List Nat) (h : n < 18446744073709551616) :
    readU64 (u64le n ++ rest) = some (n, rest) := by
  have hn : n % 256 + n / 256 % 256 * 256 + n / 65536 % 256 * 65536 +
      n / 16777216 % 256 * 16777216 + n / 4294967296 % 256 * 4294967296 +
      n / 1099511627776 % 256 * 1099511627776 +
      n / 281474976710656 % 256 * 281474976710656 +
      n / 72057594037927936 % 256 * 72057594037927936 = n := by omega
  simp [u64le, readU64, hn]

theorem i64encode_lt (i : Int) : i64encode i < 18446744073709551616 := by
  unfold i64encode; omega

theorem i64decode_i64encode (i : Int) (h1 : -9223372036854775808 ≤ i)
    (h2 : i < 9223372036854775808) : i64decode (i64encode i) = i := by
  unfold i64encode i64decode
  split <;> omega


theorem cstring_copy_of_no_nul (s : List Nat) (h : ∀ b ∈ s, b ≠ 0) :
    cstring_copy s = s := by
  simpa [cstring_copy] using h

theorem cstr_ok_no_nul (s : List Nat) (h : cstr_ok s = true) : ∀ b ∈ s, b ≠ 0 := by
  intro b hb
  have := (List.all_eq_true.mp (Bool.and_elim_left h)) b hb
  simp [byte_ok] at this
  omega

theorem cstr_ok_copy (s : List Nat) (h : cstr_ok s = true) : cstring_copy s = s :=
  cstring_copy_of_no_nul s (cstr_ok_no_nul s h)

theorem cstr_ok_length (s : List Nat) (h : cstr_ok s = true) : s.length < 4294967296 := by
  have := Bool.and_elim_right h
  simpa using this

theorem struct_find_append (a b : List (List Nat × Value)) (k : List Nat) :
    olib_object_struct_find (a ++ b) k =
      match olib_object_struct_find a k with
      | some v => some v
      | none => olib_object_struct_find b k := by
  induction a with
  | nil => simp [olib_object_struct_find]
  | cons p t ih =>
      obtain ⟨k0, v0⟩ := p
      by_cases hk : k0 = k
      · simp [olib_object_struct_find, hk]
      · simp [olib_object_struct_find, hk, ih]

theorem struct_find_eq_none_iff (fs : List (List Nat × Value)) (k : List Nat) :
    olib_object_struct_find fs k = none ↔ k ∉ fs.map Prod.fst := by
  induction fs with
  | nil => simp [olib_object_struct_find]
  | cons p t ih =>
      obtain ⟨k0, v0⟩ := p
      by_cases hk : k0 = k
      · simp [olib_object_struct_find, hk]
      · simp [olib_object_struct_find, hk, ih]
        intro h
        exact fun hkk => hk hkk.symm

theorem struct_replace_keys (fs : List (List Nat × Value)) (k : List Nat) (v : Value) :
    (struct_replace_entry fs k v).map Prod.fst = fs.map Prod.fst := by
  induction fs with
  | nil => rfl
  | cons p t ih =>
      obtain ⟨k0, v0⟩ := p
      by_cases hk : k0 = k
      · simp [struct_replace_entry, hk]
      · simp [struct_replace_entry, hk, ih]

theorem struct_set_of_absent (fs : List (List Nat × Value)) (k : List Nat) (v : Value)
    (hnone : olib_object_struct_find fs k = none) :
    struct_set_entries fs k v = (true, fs ++ [(cstring_copy k, v)]) := by
  simp [struct_set_entries, struct_add_entries, hnone]

theorem struct_set_keys_nodup (fs : List (List Nat × Value)) (k : List Nat) (v : Value)
    (hkey : cstring_copy k = k) (hnd : (fs.map Prod.fst).Nodup) :
    (((struct_set_entries fs k v).2).map Prod.fst).Nodup := by
  cases h : olib_object_struct_find fs k with
  | some w =>
      simp only [struct_set_entries, h, Option.isSome_some, if_true]
      rw [struct_replace_keys]
      exact hnd
  | none =>
      simp only [struct_set_entries, struct_add_entries, h, Option.isSome_none,
        Bool.false_eq_true, if_false]
      rw [List.map_append, hkey]
      simp only [List.map_cons, List.map_nil]
      rw [List.nodup_append]
      refine ⟨hnd, List.nodup_singleton _, ?_⟩
      intro a ha hb
      simp at hb
      rw [hb] at ha
      exact absurd ha ((struct_find_eq_none_iff fs k).mp h)

theorem struct_map_if_of_absent (t : List (List Nat × Value)) (k : List Nat) (v : Value)
    (hout : k ∉ t.map Prod.fst) :
    t.map (fun p => if p.1 = k then (p.1, v) else p) = t := by
  induction t with
  | nil => rfl
  | cons p r ih =>
      obtain ⟨k0, v0⟩ := p
      have hk0 : ¬k0 = k := by
        intro h
        exact hout (by simp [h])
      have hr : k ∉ r.map Prod.fst := fun h => hout (by simp [h])
      simp [hk0, ih hr]

theorem struct_replace_eq_map (fs : List (List Nat × Value)) (k : List Nat) (v : Value)
    (hnd : (fs.map Prod.fst).Nodup) :
    struct_replace_entry fs k v = fs.map (fun p => if p.1 = k then (p.1, v) else p) := by
  induction fs with
  | nil => rfl
  | cons p t ih =>
      obtain ⟨k0, v0⟩ := p
      have hnd2 : (t.map Prod.fst).Nodup := (List.nodup_cons.mp hnd).2
      by_cases hk : k0 = k
      · subst hk
        have hout : k0 ∉ t.map Prod.fst := (List.nodup_cons.mp hnd).1
        simp [struct_replace_entry, struct_map_if_of_absent t k0 v hout]
      · simp [struct_replace_entry, hk, ih hnd2]

theorem read_u32_list_emit (ds : List Nat) (rest : List Nat)
    (h : ∀ d ∈ ds, d < 4294967296) :
    read_u32_list ds.length ((ds.map (fun d => u32le (d % 4294967296))).flatten ++ rest) =
      some (ds, rest) := by
  induction ds with
  | nil => simp [read_u32_list]
  | cons d t ih =>
      have hd : d < 4294967296 := h d (by simp)
      have hmod : d % 4294967296 = d := Nat.mod_eq_of_lt hd
      simp only [List.map_cons, List.flatten_cons, List.length_cons, List.append_assoc,
        read_u32_list, hmod]
      simp only [readU32_u32le d _ hd]
      simp only [ih fun x hx => h x (by simp [hx])]

theorem read_u64_list_emit (xs : List Nat) (rest : List Nat)
    (h : ∀ x ∈ xs, x < 18446744073709551616) :
    read_u64_list xs.length ((xs.map u64le).flatten ++ rest) = some (xs, rest) := by
  induction xs with
  | nil => simp [read_u64_list]
  | cons x t ih =>
      have hx : x < 18446744073709551616 := h x (by simp)
      simp only [List.map_cons, List.flatten_cons, List.length_cons, List.append_assoc,
        read_u64_list]
      simp only [readU64_u64le x _ hx]
      simp only [ih fun y hy => h y (by simp [hy])]

theorem matrixInvFields_append (a b : List (List Nat × Value)) :
    matrixInvFields (a ++ b) = (matrixInvFields a && matrixInvFields b) := by
  induction a with
  | nil => simp [matrixInvFields]
  | cons p t ih =>
      obtain ⟨k0, v0⟩ := p
      simp [matrixInvFields, ih, Bool.and_assoc]

theorem matrixInvFields_replace (fs : List (List Nat × Value)) (k : List Nat) (v : Value)
    (hf : matrixInvFields fs = true) (hv : matrixInvValue v = true) :
    matrixInvFields (struct_replace_entry fs k v) = true := by
  induction fs with
  | nil => simp [struct_replace_entry, matrixInvFields]
  | cons p t ih =>
      obtain ⟨k0, v0⟩ := p
      simp only [matrixInvFields, Bool.and_eq_true] at hf
      by_cases hk : k0 = k
      · simp [struct_replace_entry, hk, matrixInvFields, hv, hf.2]
      · simp [struct_replace_entry, hk, matrixInvFields, hf.1, ih hf.2]

theorem matrixInvFields_set (fs : List (List Nat × Value)) (k : List Nat) (v : Value)
    (hf : matrixInvFields fs = true) (hv : matrixInvValue v = true) :
    matrixInvFields ((struct_set_entries fs k v).2) = true := by
  cases h : olib_object_struct_find fs k with
  | some w =>
      simp only [struct_set_entries, h, Option.isSome_some, if_true]
      exact matrixInvFields_replace fs k v hf hv
  | none =>
      simp only [struct_set_entries, struct_add_entries, h, Option.isSome_none,
        Bool.false_eq_true, if_false]
      rw [matrixInvFields_append]
      simp [hf, matrixInvFields, hv]

theorem olib_object_matrix_new_some (ds : List Nat) (m : Value)
    (h : olib_object_matrix_new (some ds) = some m) :
    m = Value.vmatrix ds (List.replicate ds.prod 0) := by
  by_cases h0 : ds.length = 0
  · simp [olib_object_matrix_new, h0] at h
  · by_cases hz : (ds.any fun d => decide (d = 0)) = true
    · simp [olib_object_matrix_new, h0, hz] at h
    · simp [olib_object_matrix_new, h0, hz] at h
      exact h.symm

mutual
theorem matinv_read_value : ∀ (σ : Type) (cfg : SerializerConfig σ),
    (∀ st dims data st2, cfg.read_matrix st = some (dims, data, st2) →
      dims.prod ≤ data.length) →
    ∀ (fuel : Nat) (s s2 : σ) (v : Value),
    olib_serializer_read_object cfg fuel s = some (v, s2) → matrixInvValue v = true
  | σ, cfg, hcfg, 0, s, s2, v => by
      intro h
      simp [olib_serializer_read_object] at h
  | σ, cfg, hcfg, fuel + 1, s, s2, v => by
      intro h
      unfold olib_serializer_read_object at h
      rcases hpk : cfg.read_peek s with ⟨t, s1⟩
      simp only [hpk] at h
      cases t with
      | tint =>
          cases hr : cfg.read_int s1 with
          | none => simp only [hr] at h; exact Option.noConfusion h
          | some p =>
              simp only [hr] at h
              simp only [Option.some.injEq, Prod.mk.injEq] at h
              rw [← h.1]
              rfl
      | tuint =>
          cases hr : cfg.read_uint s1 with
          | none => simp only [hr] at h; exact Option.noConfusion h
          | some p =>
              simp only [hr, Option.some.injEq, Prod.mk.injEq] at h
              rw [← h.1]
              rfl
      | tfloat =>
          cases hr : cfg.read_float s1 with
          | none => simp only [hr] at h; exact Option.noConfusion h
          | some p =>
              simp only [hr, Option.some.injEq, Prod.mk.injEq] at h
              rw [← h.1]
              rfl
      | tstring =>
          cases hr : cfg.read_string s1 with
          | none => simp only [hr] at h; exact Option.noConfusion h
          | some p =>
              simp only [hr, Option.some.injEq, Prod.mk.injEq] at h
              rw [← h.1]
              rfl
      | tbool =>
          cases hr : cfg.read_bool s1 with
          | none => simp only [hr] at h; exact Option.noConfusion h
          | some p =>
              simp only [hr, Option.some.injEq, Prod.mk.injEq] at h
              rw [← h.1]
              rfl
      | tarray =>
          cases hb : cfg.read_array_begin s1 with
          | none => simp only [hb] at h; exact Option.noConfusion h
          | some p =>
              simp only [hb] at h
              cases hi : olib_serializer_read_items cfg fuel p.1 p.2 with
              | none => simp only [hi] at h; exact Option.noConfusion h
              | some q =>
                  simp only [hi] at h
                  cases he : cfg.read_array_end q.2 with
                  | none => simp only [he] at h; exact Option.noConfusion h
                  | some s4 =>
                      simp only [he, Option.some.injEq, Prod.mk.injEq] at h
                      rw [← h.1]
                      simp only [matrixInvValue]
                      exact matinv_read_items σ cfg hcfg fuel p.1 p.2 q.2 q.1 (by
                        rw [hi])
      | tstruct =>
          cases hb : cfg.read_struct_begin s1 with
          | none => simp only [hb] at h; exact Option.noConfusion h
          | some sb =>
              simp only [hb] at h
              cases hl : olib_serializer_read_struct_loop cfg fuel [] sb with
              | none => simp only [hl] at h; exact Option.noConfusion h
              | some q =>
                  simp only [hl] at h
                  cases he : cfg.read_struct_end q.2 with
                  | none => simp only [he] at h; exact Option.noConfusion h
                  | some s4 =>
                      simp only [he, Option.some.injEq, Prod.mk.injEq] at h
                      rw [← h.1]
                      simp only [matrixInvValue]
                      exact matinv_read_loop σ cfg hcfg fuel [] sb q.2 q.1
                        (by rw [hl]) rfl
      | tmatrix =>
          cases hm : cfg.read_matrix s1 with
          | none => simp only [hm] at h; exact Option.noConfusion h
          | some p =>
              obtain ⟨dims, data, st2⟩ := p
              simp only [hm] at h
              cases hn : olib_object_matrix_new (some dims) with
              | none => simp only [hn] at h; exact Option.noConfusion h
              | some m =>
                  simp only [hn] at h
                  have hm2 := olib_object_matrix_new_some dims m hn
                  subst hm2
                  simp only [olib_object_matrix_set_data, olib_object_matrix_total_size,
                    List.length_replicate, Option.some.injEq, Prod.mk.injEq] at h
                  rw [← h.1]
                  have hlen : dims.prod ≤ data.length := hcfg s1 dims data st2 hm
                  simp only [matrixInvValue]
                  simp [Nat.min_self, List.length_take, hlen]
      | tmax => exact Option.noConfusion h

theorem matinv_read_items : ∀ (σ : Type) (cfg : SerializerConfig σ),
    (∀ st dims data st2, cfg.read_matrix st = some (dims, data, st2) →
      dims.prod ≤ data.length) →
    ∀ (fuel n : Nat) (s s2 : σ) (xs : List Value),
    olib_serializer_read_items cfg fuel n s = some (xs, s2) → matrixInvItems xs = true
  | σ, cfg, hcfg, 0, n, s, s2, xs => by
      intro h
      simp [olib_serializer_read_items] at h
  | σ, cfg, hcfg, fuel + 1, 0, s, s2, xs => by
      intro h
      simp only [olib_serializer_read_items, Option.some.injEq, Prod.mk.injEq] at h
      rw [← h.1]
      rfl
  | σ, cfg, hcfg, fuel + 1, n + 1, s, s2, xs => by
      intro h
      unfold olib_serializer_read_items at h
      cases hv : olib_serializer_read_object cfg fuel s with
      | none => simp only [hv] at h; exact Option.noConfusion h
      | some p =>
          simp only [hv] at h
          cases hr : olib_serializer_read_items cfg fuel n p.2 with
          | none => simp only [hr] at h; exact Option.noConfusion h
          | some q =>
              simp only [hr, Option.some.injEq, Prod.mk.injEq] at h
              rw [← h.1]
              simp only [matrixInvItems, Bool.and_eq_true]
              exact ⟨matinv_read_value σ cfg hcfg fuel s p.2 p.1 (by rw [hv]),
                matinv_read_items σ cfg hcfg fuel n p.2 q.2 q.1 (by rw [hr])⟩

theorem matinv_read_loop : ∀ (σ : Type) (cfg : SerializerConfig σ),
    (∀ st dims data st2, cfg.read_matrix st = some (dims, data, st2) →
      dims.prod ≤ data.length) →
    ∀ (fuel : Nat) (acc : List (List Nat × Value)) (s : σ) (s2 : σ)
      (fs : List (List Nat × Value)),
    olib_serializer_read_struct_loop cfg fuel acc s = some (fs, s2) →
    matrixInvFields acc = true → matrixInvFields fs = true
  | σ, cfg, hcfg, 0, acc, s, s2, fs => by
      intro h hacc
      simp [olib_serializer_read_struct_loop] at h
  | σ, cfg, hcfg, fuel + 1, acc, s, s2, fs => by
      intro h hacc
      unfold olib_serializer_read_struct_loop at h
      rcases hk : cfg.read_struct_key s with ⟨ok, sk⟩
      simp only [hk] at h
      cases ok with
      | none =>
          simp only [Option.some.injEq, Prod.mk.injEq] at h
          rw [← h.1]
          exact hacc
      | some k =>
          cases hv : olib_serializer_read_object cfg fuel sk with
          | none => simp only [hv] at h; exact Option.noConfusion h
          | some p =>
              simp only [hv] at h
              exact matinv_read_loop σ cfg hcfg fuel
                (struct_set_entries acc (cstring_copy k) p.1).2 p.2 s2 fs h
                (matrixInvFields_set acc (cstring_copy k) p.1 hacc
                  (matinv_read_value σ cfg hcfg fuel sk p.2 p.1 (by rw [hv])))
end


theorem binCfg_write_int : binaryConfig.write_int = binary_write_int := rfl
theorem binCfg_write_uint : binaryConfig.write_uint = binary_write_uint := rfl
theorem binCfg_write_float : binaryConfig.write_float = binary_write_float := rfl
theorem binCfg_write_string : binaryConfig.write_string = binary_write_string := rfl
theorem binCfg_write_bool : binaryConfig.write_bool = binary_write_bool := rfl
theorem binCfg_write_array_begin : binaryConfig.write_array_begin = binary_write_list_begin := rfl
theorem binCfg_write_struct_begin : binaryConfig.write_struct_begin = binary_write_struct_begin := rfl
theorem binCfg_write_struct_key : binaryConfig.write_struct_key = binary_write_struct_key := rfl
theorem binCfg_write_struct_end : binaryConfig.write_struct_end = binary_write_struct_end := rfl
theorem binCfg_write_matrix : binaryConfig.write_matrix = binary_write_matrix := rfl
theorem binCfg_read_peek : binaryConfig.read_peek = binary_read_peek := rfl
theorem binCfg_read_int : binaryConfig.read_int = binary_read_int := rfl
theorem binCfg_read_uint : binaryConfig.read_uint = binary_read_uint := rfl
theorem binCfg_read_float : binaryConfig.read_float = binary_read_float := rfl
theorem binCfg_read_string : binaryConfig.read_string = binary_read_string := rfl
theorem binCfg_read_bool : binaryConfig.read_bool = binary_read_bool := rfl
theorem binCfg_read_array_begin : binaryConfig.read_array_begin = binary_read_list_begin := rfl
theorem binCfg_read_struct_begin : binaryConfig.read_struct_begin = binary_read_struct_begin := rfl
theorem binCfg_read_struct_key : binaryConfig.read_struct_key = binary_read_struct_key := rfl
theorem binCfg_read_struct_end : binaryConfig.read_struct_end = binary_read_struct_end := rfl
theorem binCfg_read_matrix : binaryConfig.read_matrix = binary_read_matrix := rfl

theorem binCfg_write_array_end : binaryConfig.write_array_end = fun s => binary_write_list_end s := rfl

theorem binCfg_read_array_end : binaryConfig.read_array_end = fun s => binary_read_list_end s := rfl

theorem binCfg_text_based : binaryConfig.text_based = false := rfl

mutual
theorem bin_write_value_emit : ∀ (v : Value) (s : List Nat),
    olib_serializer_write_object binaryConfig v s = some (s ++ binEmitValue v)
  | Value.vint i, s => by
      simp [olib_serializer_write_object, binCfg_write_int, binary_write_int, binEmitValue]
  | Value.vuint n, s => by
      simp [olib_serializer_write_object, binCfg_write_uint, binary_write_uint, binEmitValue]
  | Value.vfloat bits, s => by
      simp [olib_serializer_write_object, binCfg_write_float, binary_write_float, binEmitValue]
  | Value.vstring str, s => by
      simp [olib_serializer_write_object, binCfg_write_string, binary_write_string, binEmitValue]
  | Value.vbool b, s => by
      simp [olib_serializer_write_object, binCfg_write_bool, binary_write_bool, binEmitValue]
  | Value.vlist xs, s => by
      simp only [olib_serializer_write_object, binCfg_write_array_begin,
        binary_write_list_begin]
      simp only [bin_write_items_emit xs]
      simp [binCfg_write_array_end, binary_write_list_end, binEmitValue, List.append_assoc]
  | Value.vstruct fs, s => by
      simp only [olib_serializer_write_object, binCfg_write_struct_begin,
        binary_write_struct_begin]
      simp only [bin_write_fields_emit fs]
      simp [binCfg_write_struct_end, binary_write_struct_end, binEmitValue, List.append_assoc]
  | Value.vmatrix dims data, s => by
      simp [olib_serializer_write_object, binCfg_write_matrix, binary_write_matrix,
        binEmitValue, List.append_assoc]

theorem bin_write_items_emit : ∀ (xs : List Value) (s : List Nat),
    olib_serializer_write_items binaryConfig xs s = some (s ++ binEmitItems xs)
  | [], s => by simp [olib_serializer_write_items, binEmitItems]
  | v :: vs, s => by
      simp only [olib_serializer_write_items]
      simp only [bin_write_value_emit v]
      simp only [bin_write_items_emit vs]
      simp [binEmitItems, List.append_assoc]

theorem bin_write_fields_emit : ∀ (fs : List (List Nat × Value)) (s : List Nat),
    olib_serializer_write_fields binaryConfig fs s = some (s ++ binEmitFields fs)
  | [], s => by simp [olib_serializer_write_fields, binEmitFields]
  | (k, v) :: fs, s => by
      simp only [olib_serializer_write_fields, binCfg_write_struct_key,
        binary_write_struct_key]
      simp only [bin_write_value_emit v]
      simp only [bin_write_fields_emit fs]
      simp [binEmitFields, List.append_assoc]
end

theorem binTagToType_1 : binTagToType 1 = ObjType.tint := rfl
theorem binTagToType_2 : binTagToType 2 = ObjType.tuint := rfl
theorem binTagToType_3 : binTagToType 3 = ObjType.tfloat := rfl
theorem binTagToType_4 : binTagToType 4 = ObjType.tstring := rfl
theorem binTagToType_5 : binTagToType 5 = ObjType.tbool := rfl
theorem binTagToType_6 : binTagToType 6 = ObjType.tarray := rfl
theorem binTagToType_7 : binTagToType 7 = ObjType.tstruct := rfl
theorem binTagToType_8 : binTagToType 8 = ObjType.tmatrix := rfl

mutual
theorem bin_rt_value : ∀ (v : Value) (rest : List Nat) (fuel : Nat),
    binWeight v ≤ fuel → wfValue v = true → keysNonempty v = true →
    olib_serializer_read_object binaryConfig fuel (binEmitValue v ++ rest) = some (v, rest)
  | Value.vint i, rest, 0 => by intro hf _ _; simp [binWeight] at hf
  | Value.vuint n, rest, 0 => by intro hf _ _; simp [binWeight] at hf
  | Value.vfloat b, rest, 0 => by intro hf _ _; simp [binWeight] at hf
  | Value.vstring s, rest, 0 => by intro hf _ _; simp [binWeight] at hf
  | Value.vbool b, rest, 0 => by intro hf _ _; simp [binWeight] at hf
  | Value.vlist xs, rest, 0 => by intro hf _ _; simp [binWeight] at hf
  | Value.vstruct fs, rest, 0 => by intro hf _ _; simp [binWeight] at hf
  | Value.vmatrix d dd, rest, 0 => by intro hf _ _; simp [binWeight] at hf
  | Value.vint i, rest, fuel + 1 => by
      intro hf hw hk
      simp only [wfValue, Bool.and_eq_true, decide_eq_true_eq] at hw
      simp only [binEmitValue, List.cons_append]
      unfold olib_serializer_read_object
      simp only [binCfg_read_peek, binary_read_peek, binTagToType_1]
      simp only [binCfg_read_int, binary_read_int, readU8]
      simp only [readU64_u64le _ _ (i64encode_lt i)]
      simp [i64decode_i64encode i hw.1 hw.2]
  | Value.vuint n, rest, fuel + 1 => by
      intro hf hw hk
      simp only [wfValue, decide_eq_true_eq] at hw
      simp only [binEmitValue, List.cons_append]
      unfold olib_serializer_read_object
      simp only [binCfg_read_peek, binary_read_peek, binTagToType_2]
      simp only [binCfg_read_uint, binary_read_uint, readU8]
      simp [readU64_u64le _ _ hw]
  | Value.vfloat b, rest, fuel + 1 => by
      intro hf hw hk
      simp only [wfValue, decide_eq_true_eq] at hw
      simp only [binEmitValue, List.cons_append]
      unfold olib_serializer_read_object
      simp only [binCfg_read_peek, binary_read_peek, binTagToType_3]
      simp only [binCfg_read_float, binary_read_float, readU8]
      simp [readU64_u64le _ _ hw]
  | Value.vstring str, rest, fuel + 1 => by
      intro hf hw hk
      have hw2 : cstr_ok str = true := hw
      have hlen := cstr_ok_length str hw2
      have hmod : str.length % 4294967296 = str.length := Nat.mod_eq_of_lt hlen
      simp only [binEmitValue, hmod, List.take_length, List.cons_append, List.append_assoc]
      unfold olib_serializer_read_object
      simp only [binCfg_read_peek, binary_read_peek, binTagToType_4]
      simp only [binCfg_read_string, binary_read_string, readU8]
      simp only [readU32_u32le _ _ hlen]
      have hnot : ¬(str ++ rest).length < str.length := by simp
      simp only [if_neg hnot, if_pos rfl]
      simp [List.take_left, List.drop_left, cstr_ok_copy str hw2]
  | Value.vbool b, rest, fuel + 1 => by
      intro hf hw hk
      simp only [binEmitValue, List.cons_append]
      unfold olib_serializer_read_object
      simp only [binCfg_read_peek, binary_read_peek, binTagToType_5]
      simp only [binCfg_read_bool, binary_read_bool, readU8]
      cases b <;> simp
  | Value.vlist xs, rest, fuel + 1 => by
      intro hf hw hk
      simp only [wfValue, Bool.and_eq_true, decide_eq_true_eq] at hw
      obtain ⟨hlen, hitems⟩ := hw
      simp only [keysNonempty] at hk
      simp only [binWeight] at hf
      have hmod : xs.length % 4294967296 = xs.length := Nat.mod_eq_of_lt hlen
      simp only [binEmitValue, hmod, List.cons_append, List.append_assoc]
      unfold olib_serializer_read_object
      simp only [binCfg_read_peek, binary_read_peek, binTagToType_6]
      simp only [binCfg_read_array_begin, binary_read_list_begin, readU8]
      simp only [readU32_u32le _ _ hlen]
      simp only [reduceIte]
      simp only [bin_rt_items xs rest fuel (by omega) hitems hk]
      simp [binCfg_read_array_end, binary_read_list_end]
  | Value.vstruct fs, rest, fuel + 1 => by
      intro hf hw hk
      simp only [wfValue, Bool.and_eq_true, decide_eq_true_eq] at hw
      obtain ⟨hnd, hfields⟩ := hw
      simp only [keysNonempty] at hk
      simp only [binWeight] at hf
      simp only [binEmitValue, List.cons_append, List.append_assoc]
      unfold olib_serializer_read_object
      simp only [binCfg_read_peek, binary_read_peek, binTagToType_7]
      simp only [binCfg_read_struct_begin, binary_read_struct_begin, readU8]
      simp only [reduceIte]
      simp only [bin_rt_fields fs [] rest fuel (by omega) hfields hk
        (fun kv _ => rfl) hnd]
      simp only [List.nil_append]
      simp [binCfg_read_struct_end, binary_read_struct_end,
        readU32_u32le 0 rest (by norm_num)]
  | Value.vmatrix dims data, rest, fuel + 1 => by
      intro hf hw hk
      simp only [wfValue, Bool.and_eq_true, decide_eq_true_eq, List.all_eq_true] at hw
      obtain ⟨⟨⟨⟨hne, hndlen⟩, hdims⟩, hdlen⟩, hdata⟩ := hw
      have hmod : dims.length % 4294967296 = dims.length := Nat.mod_eq_of_lt hndlen
      have htake : data.take dims.prod = data := by
        rw [← hdlen]; simp
      simp only [binEmitValue, hmod, htake, List.cons_append, List.append_assoc]
      unfold olib_serializer_read_object
      simp only [binCfg_read_peek, binary_read_peek, binTagToType_8]
      simp only [binCfg_read_matrix, binary_read_matrix, readU8]
      simp only [reduceIte]
      simp only [readU32_u32le _ _ hndlen]
      simp only [read_u32_list_emit dims _ (fun d hd => by
        have := hdims d hd
        simp at this
        omega)]
      rw [show dims.prod = data.length from hdlen.symm]
      simp only [read_u64_list_emit data rest (fun x hx => by
        have := hdata x hx
        simpa using this)]
      have hzero : (dims.any fun d => decide (d = 0)) = false := by
        rw [List.any_eq_false]
        intro d hd
        have := hdims d hd
        simp at this ⊢
        omega
      have hlz : ¬dims.length = 0 := by
        intro h0
        exact hne (List.length_eq_zero.mp h0)
      simp only [olib_object_matrix_new, hzero, if_neg hlz, Bool.false_eq_true, if_false]
      simp only [olib_object_matrix_set_data, olib_object_matrix_total_size,
        List.length_replicate]
      simp [hdlen, List.take_length, List.drop_length, Nat.min_self]

theorem bin_rt_items : ∀ (xs : List Value) (rest : List Nat) (fuel : Nat),
    binWeightItems xs ≤ fuel → wfItems xs = true → keysNonemptyItems xs = true →
    olib_serializer_read_items binaryConfig fuel xs.length (binEmitItems xs ++ rest) =
      some (xs, rest)
  | [], rest, 0 => by intro hf _ _; simp [binWeightItems] at hf
  | v :: vs, rest, 0 => by intro hf _ _; simp [binWeightItems] at hf
  | [], rest, fuel + 1 => by
      intro _ _ _
      simp [binEmitItems, olib_serializer_read_items]
  | v :: vs, rest, fuel + 1 => by
      intro hf hw hk
      simp only [wfItems, Bool.and_eq_true] at hw
      simp only [keysNonemptyItems, Bool.and_eq_true] at hk
      simp only [binWeightItems] at hf
      simp only [binEmitItems, List.length_cons, List.append_assoc]
      unfold olib_serializer_read_items
      simp only [bin_rt_value v _ fuel (by omega) hw.1 hk.1]
      simp only [bin_rt_items vs rest fuel (by omega) hw.2 hk.2]

theorem bin_rt_fields : ∀ (fs acc : List (List Nat × Value)) (rest : List Nat) (fuel : Nat),
    binWeightFields fs ≤ fuel → wfFields fs = true → keysNonemptyFields fs = true →
    (∀ kv ∈ fs, olib_object_struct_find acc kv.1 = none) →
    ((fs.map Prod.fst).Nodup) →
    olib_serializer_read_struct_loop binaryConfig fuel acc
      (binEmitFields fs ++ (u32le 0 ++ rest)) = some (acc ++ fs, u32le 0 ++ rest)
  | [], acc, rest, 0 => by intro hf _ _ _ _; simp [binWeightFields] at hf
  | (k, v) :: fs, acc, rest, 0 => by intro hf _ _ _ _; simp [binWeightFields] at hf
  | [], acc, rest, fuel + 1 => by
      intro _ _ _ _ _
      simp only [binEmitFields, List.nil_append]
      unfold olib_serializer_read_struct_loop
      simp only [binCfg_read_struct_key, binary_read_struct_key]
      simp only [readU32_u32le 0 rest (by norm_num)]
      simp
  | (k, v) :: fs, acc, rest, fuel + 1 => by
      intro hf hw hk hdisj hnd
      simp only [wfFields, Bool.and_eq_true] at hw
      obtain ⟨⟨hck, hwv⟩, hwfs⟩ := hw
      simp only [keysNonemptyFields, Bool.and_eq_true, decide_eq_true_eq] at hk
      obtain ⟨⟨hkne, hkv⟩, hkfs⟩ := hk
      simp only [binWeightFields] at hf
      have hklen := cstr_ok_length k hck
      have hkmod : k.length % 4294967296 = k.length := Nat.mod_eq_of_lt hklen
      simp only [binEmitFields, hkmod, List.take_length, List.append_assoc]
      unfold olib_serializer_read_struct_loop
      simp only [binCfg_read_struct_key, binary_read_struct_key]
      simp only [readU32_u32le _ _ hklen]
      have hk0 : ¬k.length = 0 := by
        intro h0
        exact hkne (List.length_eq_zero.mp h0)
      have hnotlt : ¬(k ++ (binEmitValue v ++ (binEmitFields fs ++ (u32le 0 ++ rest)))).length < k.length := by
        simp
      simp only [if_neg hk0, if_neg hnotlt, List.take_left, List.drop_left]
      simp only [bin_rt_value v _ fuel (by omega) hwv hkv]
      have hfind : olib_object_struct_find acc k = none :=
        hdisj (k, v) (List.mem_cons_self _ _)
      have hcopy : cstring_copy k = k := cstr_ok_copy k hck
      rw [hcopy, struct_set_of_absent acc k v hfind, hcopy]
      have hdisj2 : ∀ kv ∈ fs, olib_object_struct_find (acc ++ [(k, v)]) kv.1 = none := by
        intro kv hkvmem
        rw [struct_find_append]
        rw [hdisj kv (List.mem_cons_of_mem _ hkvmem)]
        have hne2 : ¬k = kv.1 := by
          intro hkk
          have : kv.1 ∈ fs.map Prod.fst := List.mem_map_of_mem Prod.fst hkvmem
          rw [← hkk] at this
          exact (List.nodup_cons.mp hnd).1 this
        simp [olib_object_struct_find, hne2]
      have hnd2 : (fs.map Prod.fst).Nodup := (List.nodup_cons.mp hnd).2
      simp only [bin_rt_fields fs (acc ++ [(k, v)]) rest fuel (by omega) hwfs hkfs
        hdisj2 hnd2]
      simp
end

/-- C2: for every Struct value no two entries share a key; olib_object_struct_add
with an already-present key returns false and leaves the struct completely
unchanged (same size, same entries, same order); olib_object_struct_set on an
existing key replaces that entry's value in place (the pointwise map keeps
every entry's index, touching only the matching entry), and both operations
preserve key uniqueness. -/
theorem c2_struct_key_uniqueness :
    ∀ (fs : List (List Nat × Value)) (k : List Nat) (v : Value),
    ((olib_object_struct_find fs k).isSome = true →
      olib_object_struct_add (some (Value.vstruct fs)) (some k) v =
        (false, some (Value.vstruct fs))) ∧
    ((fs.map Prod.fst).Nodup → (olib_object_struct_find fs k).isSome = true →
      olib_object_struct_set (some (Value.vstruct fs)) (some k) v =
        (true, some (Value.vstruct (fs.map fun p => if p.1 = k then (p.1, v) else p)))) ∧
    (cstring_copy k = k → (fs.map Prod.fst).Nodup →
      ((((struct_add_entries fs k v).2).map Prod.fst).Nodup ∧
       (((struct_set_entries fs k v).2).map Prod.fst).Nodup)) := by
  intro fs k v
  refine ⟨?_, ?_, ?_⟩
  · intro hp
    simp [olib_object_struct_add, struct_add_entries, hp]
  · intro hnd hp
    simp only [olib_object_struct_set, struct_set_entries, hp, if_true]
    rw [struct_replace_eq_map fs k v hnd]
  · intro hkey hnd
    constructor
    · cases h : olib_object_struct_find fs k with
      | some w =>
          simp [struct_add_entries, h]
          exact hnd
      | none =>
          simp only [struct_add_entries, h, Option.isSome_none, Bool.false_eq_true, if_false]
          rw [List.map_append, hkey]
          simp only [List.map_cons, List.map_nil]
          rw [List.nodup_append]
          refine ⟨hnd, List.nodup_singleton _, ?_⟩
          intro a ha hb
          simp at hb
          rw [hb] at ha
          exact absurd ha ((struct_find_eq_none_iff fs k).mp h)
    · exact struct_set_keys_nodup fs k v hkey hnd

/-- C2 witness: a one-entry struct with key "a"; adding the same key fails and
leaves it unchanged, setting replaces the value in place. -/
theorem c2_struct_key_uniqueness_witness :
    (olib_object_struct_find [([97], Value.vint 1)] [97]).isSome = true ∧
    olib_object_struct_add (some (Value.vstruct [([97], Value.vint 1)])) (some [97])
      (Value.vint 2) = (false, some (Value.vstruct [([97], Value.vint 1)])) ∧
    olib_object_struct_set (some (Value.vstruct [([97], Value.vint 1)])) (some [97])
      (Value.vint 2) = (true, some (Value.vstruct [([97], Value.vint 2)])) := by
  refine ⟨rfl, ?_, ?_⟩
  · exact (c2_struct_key_uniqueness [([97], Value.vint 1)] [97] (Value.vint 2)).1 rfl
  · have h := (c2_struct_key_uniqueness [([97], Value.vint 1)] [97] (Value.vint 2)).2.1
      (by simp) rfl
    simpa using h

/-- C4: the header documents that olib_serializer_write_string and
olib_serializer_read_string must fail on a binary-based serializer (and
olib_serializer_write / olib_serializer_read on a text-based one), but the
implementation performs no text_based check at all: with the binary backend
(text_based = false) both string entry points run the engine and succeed. -/
theorem c4_entry_point_evaluation :
    binaryConfig.text_based = false ∧
    olib_serializer_write_string binaryConfig (some (Value.vint 5)) [] =
      some [1, 5, 0, 0, 0, 0, 0, 0, 0] ∧
    olib_serializer_read_string binaryConfig (some [1]) 1 [1, 5, 0, 0, 0, 0, 0, 0, 0] =
      some (Value.vint 5) :=
  ⟨rfl, rfl, rfl⟩

/-- C5 counterexample: the JSON backend's read_peek moves the cursor (it
consumes a separating comma), so on the input ",,5" the cursor changes and a
second consecutive peek returns a different answer than the first. -/
theorem c5_json_peek_counterexample :
    (json_read_peek [',', ',', '5']).2 ≠ [',', ',', '5'] ∧
    (json_read_peek ((json_read_peek [',', ',', '5']).2)).1 ≠
      (json_read_peek [',', ',', '5']).1 := by
  decide

/-- C5 as amended: the binary backend's read_peek is genuinely non-consuming —
it leaves the cursor exactly unchanged, so a repeated peek returns the same
answer and the typed reader sees the stream as before the peek; the JSON
backend's peek does not have this property (see the counterexample). -/
theorem c5_peek_amended : ∀ s : List Nat,
    (binary_read_peek s).2 = s ∧
    binary_read_peek ((binary_read_peek s).2) = binary_read_peek s := by
  intro s
  cases s <;> simp [binary_read_peek]

/-- C6: whenever any backend read primitive fails during
olib_serializer_read_object, the whole read returns none and no partial tree
is returned.  Stated as a complete case analysis over the engine's dispatch:
an unrecognized lookahead, a failing scalar reader (int, uint, float,
string, bool), a failure of read_array_begin, of the element loop, or of
read_array_end, a failure of read_struct_begin, of the key/value loop, or —
as the claim singles out — of read_struct_end after the loop stopped, a
failure of read_matrix, and a read_matrix answer olib_object_matrix_new
rejects, each make the read none; and a failing nested read propagates
outward: it fails the element loop whether it strikes the head element or
the remaining ones, and it fails the struct loop whether it strikes the
value just keyed or the rest of the loop. -/
theorem c6_read_failure_propagation : ∀ (σ : Type) (cfg : SerializerConfig σ)
    (fuel : Nat) (s s1 : σ),
    ((cfg.read_peek s).1 = ObjType.tmax →
      olib_serializer_read_object cfg (fuel + 1) s = none) ∧
    (cfg.read_peek s = (ObjType.tint, s1) → cfg.read_int s1 = none →
      olib_serializer_read_object cfg (fuel + 1) s = none) ∧
    (cfg.read_peek s = (ObjType.tuint, s1) → cfg.read_uint s1 = none →
      olib_serializer_read_object cfg (fuel + 1) s = none) ∧
    (cfg.read_peek s = (ObjType.tfloat, s1) → cfg.read_float s1 = none →
      olib_serializer_read_object cfg (fuel + 1) s = none) ∧
    (cfg.read_peek s = (ObjType.tstring, s1) → cfg.read_string s1 = none →
      olib_serializer_read_object cfg (fuel + 1) s = none) ∧
    (cfg.read_peek s = (ObjType.tbool, s1) → cfg.read_bool s1 = none →
      olib_serializer_read_object cfg (fuel + 1) s = none) ∧
    (cfg.read_peek s = (ObjType.tarray, s1) →
      ((cfg.read_array_begin s1 = none →
         olib_serializer_read_object cfg (fuel + 1) s = none) ∧
       (∀ n s2, cfg.read_array_begin s1 = some (n, s2) →
         ((olib_serializer_read_items cfg fuel n s2 = none →
            olib_serializer_read_object cfg (fuel + 1) s = none) ∧
          (∀ xs s3, olib_serializer_read_items cfg fuel n s2 = some (xs, s3) →
            cfg.read_array_end s3 = none →
            olib_serializer_read_object cfg (fuel + 1) s = none))))) ∧
    (cfg.read_peek s = (ObjType.tstruct, s1) →
      ((cfg.read_struct_begin s1 = none →
         olib_serializer_read_object cfg (fuel + 1) s = none) ∧
       (∀ s2, cfg.read_struct_begin s1 = some s2 →
         ((olib_serializer_read_struct_loop cfg fuel [] s2 = none →
            olib_serializer_read_object cfg (fuel + 1) s = none) ∧
          (∀ fs s3, olib_serializer_read_struct_loop cfg fuel [] s2 = some (fs, s3) →
            cfg.read_struct_end s3 = none →
            olib_serializer_read_object cfg (fuel + 1) s = none))))) ∧
    (cfg.read_peek s = (ObjType.tmatrix, s1) →
      ((cfg.read_matrix s1 = none →
         olib_serializer_read_object cfg (fuel + 1) s = none) ∧
       (∀ dims data s2, cfg.read_matrix s1 = some (dims, data, s2) →
         olib_object_matrix_new (some dims) = none →
         olib_serializer_read_object cfg (fuel + 1) s = none))) ∧
    (∀ n, olib_serializer_read_object cfg fuel s = none →
      olib_serializer_read_items cfg (fuel + 1) (n + 1) s = none) ∧
    (∀ n v s2, olib_serializer_read_object cfg fuel s = some (v, s2) →
      olib_serializer_read_items cfg fuel n s2 = none →
      olib_serializer_read_items cfg (fuel + 1) (n + 1) s = none) ∧
    (∀ acc k s2, cfg.read_struct_key s = (some k, s2) →
      ((olib_serializer_read_object cfg fuel s2 = none →
         olib_serializer_read_struct_loop cfg (fuel + 1) acc s = none) ∧
       (∀ v s3, olib_serializer_read_object cfg fuel s2 = some (v, s3) →
         olib_serializer_read_struct_loop cfg fuel
           (struct_set_entries acc (cstring_copy k) v).2 s3 = none →
         olib_serializer_read_struct_loop cfg (fuel + 1) acc s = none))) := by
  intro σ cfg fuel s s1
  refine ⟨?_, ?_, ?_, ?_, ?_, ?_, ?_, ?_, ?_, ?_, ?_, ?_⟩
  · intro hpk1
    rcases hpk : cfg.read_peek s with ⟨t, sx⟩
    rw [hpk] at hpk1
    simp at hpk1
    subst hpk1
    unfold olib_serializer_read_object
    simp only [hpk]
  · intro hpk hr
    unfold olib_serializer_read_object
    simp only [hpk, hr]
  · intro hpk hr
    unfold olib_serializer_read_object
    simp only [hpk, hr]
  · intro hpk hr
    unfold olib_serializer_read_object
    simp only [hpk, hr]
  · intro hpk hr
    unfold olib_serializer_read_object
    simp only [hpk, hr]
  · intro hpk hr
    unfold olib_serializer_read_object
    simp only [hpk, hr]
  · intro hpk
    refine ⟨?_, ?_⟩
    · intro hb
      unfold olib_serializer_read_object
      simp only [hpk, hb]
    · intro n s2 hb
      refine ⟨?_, ?_⟩
      · intro hitems
        unfold olib_serializer_read_object
        simp only [hpk, hb, hitems]
      · intro xs s3 hitems hend
        unfold olib_serializer_read_object
        simp only [hpk, hb, hitems, hend]
  · intro hpk
    refine ⟨?_, ?_⟩
    · intro hb
      unfold olib_serializer_read_object
      simp only [hpk, hb]
    · intro s2 hb
      refine ⟨?_, ?_⟩
      · intro hloop
        unfold olib_serializer_read_object
        simp only [hpk, hb, hloop]
      · intro fs s3 hloop hend
        unfold olib_serializer_read_object
        simp only [hpk, hb, hloop, hend]
  · intro hpk
    refine ⟨?_, ?_⟩
    · intro hm
      unfold olib_serializer_read_object
      simp only [hpk, hm]
    · intro dims data s2 hm hnew
      unfold olib_serializer_read_object
      simp only [hpk, hm, hnew]
  · intro n hv
    unfold olib_serializer_read_items
    simp only [hv]
  · intro n v s2 hv hitems
    unfold olib_serializer_read_items
    simp only [hv, hitems]
  · intro acc k s2 hk
    refine ⟨?_, ?_⟩
    · intro hv
      unfold olib_serializer_read_struct_loop
      simp only [hk, hv]
    · intro v s3 hv hloop
      unfold olib_serializer_read_struct_loop
      simp only [hk, hv, hloop]

/-- C6 witness: three binary-backend failures, one per kind.  A truncated int
(tag byte only) fails the scalar reader; the one-byte struct input makes the
key loop stop at end of buffer and read_struct_end fail on the missing
sentinel; a zero-dimension matrix frame is read back but rejected by
olib_object_matrix_new.  Each whole read is none. -/
theorem c6_read_failure_propagation_witness :
    binaryConfig.read_peek [1] = (ObjType.tint, [1]) ∧
    binaryConfig.read_int [1] = none ∧
    olib_serializer_read_object binaryConfig 1 [1] = none ∧
    binaryConfig.read_peek [7] = (ObjType.tstruct, [7]) ∧
    binaryConfig.read_struct_begin [7] = some [] ∧
    olib_serializer_read_struct_loop binaryConfig 1 [] [] = some ([], []) ∧
    binaryConfig.read_struct_end [] = none ∧
    olib_serializer_read_object binaryConfig 2 [7] = none ∧
    binaryConfig.read_peek [8, 0, 0, 0, 0, 0, 0, 0, 0, 0, 0, 0, 0] =
      (ObjType.tmatrix, [8, 0, 0, 0, 0, 0, 0, 0, 0, 0, 0, 0, 0]) ∧
    binaryConfig.read_matrix [8, 0, 0, 0, 0, 0, 0, 0, 0, 0, 0, 0, 0] =
      some ([], [0], []) ∧
    olib_object_matrix_new (some []) = none ∧
    olib_serializer_read_object binaryConfig 1 [8, 0, 0, 0, 0, 0, 0, 0, 0, 0, 0, 0, 0] =
      none := by
  refine ⟨rfl, rfl, ?_, rfl, rfl, rfl, rfl, ?_, rfl, rfl, rfl, ?_⟩
  · exact (c6_read_failure_propagation (List Nat) binaryConfig 0 [1] [1]).2.1 rfl rfl
  · exact (((c6_read_failure_propagation (List Nat) binaryConfig 1 [7] [7]).2.2.2.2.2.2.2.1
      rfl).2 [] rfl).2 [] [] rfl rfl
  · exact (((c6_read_failure_propagation (List Nat) binaryConfig 0
      [8, 0, 0, 0, 0, 0, 0, 0, 0, 0, 0, 0, 0]
      [8, 0, 0, 0, 0, 0, 0, 0, 0, 0, 0, 0, 0]).2.2.2.2.2.2.2.2.1 rfl).2 [] [0] [] rfl rfl)

/-- C8: yaml_write_list_begin chooses flow style exactly when the list has at
most 8 elements and the writer is not already inside a block list, except
that inside a flow list the style is always flow and inside a block list it
is always block. -/
theorem c8_yaml_flow_style : ∀ (size : Nat) (in_flow_list in_block_list : Bool),
    yaml_write_list_use_flow size in_flow_list in_block_list = true ↔
      (in_flow_list = true ∨ (in_block_list = false ∧ size ≤ 8)) := by
  intro size fl bl
  cases fl <;> cases bl <;> simp [yaml_write_list_use_flow]

/-- C9: every public olib_object operation, handed a NULL object pointer (or,
where applicable, a NULL key, indices or data pointer), returns that
operation's failure default — false, 0, NULL, none — and leaves the object
argument untouched, for all other argument values; the floating-point and
libc conversions some getters use are universally quantified, so the answer
never depends on them. -/
theorem c9_null_tolerance :
    olib_object_get_type none = ObjType.tmax ∧
    (∀ t, olib_object_is_type none t = false) ∧
    olib_object_is_value none = false ∧
    olib_object_is_container none = false ∧
    olib_object_dupe none = none ∧
    olib_object_list_size none = 0 ∧
    (∀ i, olib_object_list_get none i = none) ∧
    (∀ i v, olib_object_list_set none i v = (false, none)) ∧
    (∀ i v, olib_object_list_insert none i v = (false, none)) ∧
    (∀ i, olib_object_list_remove none i = (false, none)) ∧
    (∀ v, olib_object_list_push none v = (false, none)) ∧
    olib_object_list_pop none = (false, none) ∧
    olib_object_struct_size none = 0 ∧
    (∀ k, olib_object_struct_has none k = false) ∧
    (∀ obj, olib_object_struct_has obj none = false) ∧
    (∀ k, olib_object_struct_get none k = none) ∧
    (∀ obj, olib_object_struct_get obj none = none) ∧
    (∀ i, olib_object_struct_key_at none i = none) ∧
    (∀ i, olib_object_struct_value_at none i = none) ∧
    (∀ k v, olib_object_struct_add none k v = (false, none)) ∧
    (∀ obj v, olib_object_struct_add obj none v = (false, obj)) ∧
    (∀ k v, olib_object_struct_set none k v = (false, none)) ∧
    (∀ obj v, olib_object_struct_set obj none v = (false, obj)) ∧
    (∀ k, olib_object_struct_remove none k = (false, none)) ∧
    (∀ obj, olib_object_struct_remove obj none = (false, obj)) ∧
    (∀ f2i s2i, olib_object_get_int f2i s2i none = 0) ∧
    (∀ f2u s2u, olib_object_get_uint f2u s2u none = 0) ∧
    (∀ i2f u2f s2f, olib_object_get_float i2f u2f s2f none = 0) ∧
    olib_object_get_string none = none ∧
    olib_object_get_bool none = false ∧
    (∀ v, olib_object_set_int none v = (false, none)) ∧
    (∀ v, olib_object_set_uint none v = (false, none)) ∧
    (∀ v, olib_object_set_float none v = (false, none)) ∧
    (∀ v, olib_object_set_string none v = (false, none)) ∧
    (∀ v, olib_object_set_bool none v = (false, none)) ∧
    olib_object_matrix_new none = none ∧
    olib_object_matrix_ndims none = 0 ∧
    (∀ a, olib_object_matrix_dim none a = 0) ∧
    olib_object_matrix_dims none = none ∧
    olib_object_matrix_total_size none = 0 ∧
    (∀ idx, olib_object_matrix_get none idx = 0) ∧
    (∀ obj, olib_object_matrix_get obj none = 0) ∧
    olib_object_matrix_data none = none ∧
    (∀ idx v, olib_object_matrix_set none idx v = (false, none)) ∧
    (∀ obj v, olib_object_matrix_set obj none v = (false, obj)) ∧
    (∀ v, olib_object_matrix_fill none v = (false, none)) ∧
    (∀ d c, olib_object_matrix_set_data none d c = (false, none)) ∧
    (∀ obj c, olib_object_matrix_set_data obj none c = (false, obj)) := by
  refine ⟨rfl, fun t => rfl, rfl, rfl, rfl, rfl, fun i => rfl, fun i v => rfl,
    fun i v => rfl, fun i => rfl, fun v => rfl, rfl, rfl, fun k => rfl, ?_,
    fun k => rfl, ?_, fun i => rfl, fun i => rfl, fun k v => rfl, ?_,
    fun k v => rfl, ?_, fun k => rfl, ?_, fun f2i s2i => rfl, fun f2u s2u => rfl,
    fun i2f u2f s2f => rfl, rfl, rfl, fun v => rfl, fun v => rfl, fun v => rfl,
    fun v => rfl, fun v => rfl, rfl, rfl, fun a => rfl, rfl, rfl, fun idx => rfl,
    ?_, rfl, fun idx v => rfl, ?_, fun v => rfl, fun d c => rfl, ?_⟩
  · intro obj
    cases obj with
    | none => rfl
    | some w => cases w <;> rfl
  · intro obj
    cases obj with
    | none => rfl
    | some w => cases w <;> rfl
  · intro obj v
    cases obj with
    | none => rfl
    | some w => cases w <;> rfl
  · intro obj v
    cases obj with
    | none => rfl
    | some w => cases w <;> rfl
  · intro obj
    cases obj with
    | none => rfl
    | some w => cases w <;> rfl
  · intro obj
    cases obj with
    | none => rfl
    | some w => cases w <;> rfl
  · intro obj v
    cases obj with
    | none => rfl
    | some w => cases w <;> rfl
  · intro obj c
    cases obj with
    | none => rfl
    | some w => cases w <;> rfl

/-- C3: evaluation of the code at the claim's inputs.  Through the binary
backend Int at INT64_MIN and INT64_MAX and UInt at UINT64_MAX round-trip
exactly, tag and value.  Through the JSON text backend the Int boundary
values also round-trip exactly; but the UInt boundary value does not:
json_read_peek classifies the written digits "18446744073709551615" as an
Int (it never answers UInt), and json_read_int's strtoll clamps the value to
INT64_MAX, so the tree reads back as Int(9223372036854775807) — the tag and
the value both change, contradicting the claim and the expectation of
tests/test_sample_files.cpp that uint_max survives a JSON read.  The strtod
parameter of the number parser is irrelevant on these integer inputs and is
instantiated with the zero function. -/
theorem c3_integer_boundary_evaluation :
    (olib_serializer_write_object binaryConfig (Value.vint (-9223372036854775808)) [] =
        some [1, 0, 0, 0, 0, 0, 0, 0, 128] ∧
      olib_serializer_read_object binaryConfig 1 [1, 0, 0, 0, 0, 0, 0, 0, 128] =
        some (Value.vint (-9223372036854775808), [])) ∧
    (olib_serializer_write_object binaryConfig (Value.vint 9223372036854775807) [] =
        some [1, 255, 255, 255, 255, 255, 255, 255, 127] ∧
      olib_serializer_read_object binaryConfig 1 [1, 255, 255, 255, 255, 255, 255, 255, 127] =
        some (Value.vint 9223372036854775807, [])) ∧
    (olib_serializer_write_object binaryConfig (Value.vuint 18446744073709551615) [] =
        some [2, 255, 255, 255, 255, 255, 255, 255, 255] ∧
      olib_serializer_read_object binaryConfig 1 [2, 255, 255, 255, 255, 255, 255, 255, 255] =
        some (Value.vuint 18446744073709551615, [])) ∧
    (json_read_peek (json_finish_write_append (json_write_int_chars (-9223372036854775808))) =
        (ObjType.tint, json_finish_write_append (json_write_int_chars (-9223372036854775808))) ∧
      json_read_int (fun _ => 0)
          (json_finish_write_append (json_write_int_chars (-9223372036854775808))) =
        some (-9223372036854775808, ['\n'])) ∧
    (json_read_peek (json_finish_write_append (json_write_int_chars 9223372036854775807)) =
        (ObjType.tint, json_finish_write_append (json_write_int_chars 9223372036854775807)) ∧
      json_read_int (fun _ => 0)
          (json_finish_write_append (json_write_int_chars 9223372036854775807)) =
        some (9223372036854775807, ['\n'])) ∧
    (json_read_peek (json_finish_write_append (json_write_uint_chars 18446744073709551615)) =
        (ObjType.tint, json_finish_write_append (json_write_uint_chars 18446744073709551615)) ∧
      json_read_int (fun _ => 0)
          (json_finish_write_append (json_write_uint_chars 18446744073709551615)) =
        some (9223372036854775807, ['\n']) ∧
      valueType (Value.vint 9223372036854775807) ≠
        valueType (Value.vuint 18446744073709551615) ∧
      (9223372036854775807 : Int) ≠ (18446744073709551615 : Int)) :=
  ⟨⟨rfl, rfl⟩, ⟨rfl, rfl⟩, ⟨rfl, rfl⟩, ⟨rfl, rfl⟩, ⟨rfl, rfl⟩,
    ⟨rfl, rfl, by decide, by decide⟩⟩
